import Mathlib

/-!
# Verification of the NeMo-Agent-Toolkit-UI secure credential vault

Shallow embedding of the rotation-aware credential vault
(`src/utils/app/crypto.ts`, second variant) and the session security
monitor (`SessionSecurityManager` in `src/utils/app/settings.ts`).

Modelling decisions:
* `sessionStorage` is modelled structurally: the three JSON blobs
  (`jira-credentials`, `key-rotation-schedule`, the per-version
  `chat-session-key-v{n}` secrets) become typed fields of `VaultStorage`.
  Base64/JSON round-trips are faithful, so serialization is the identity.
* WebCrypto AES-GCM is modelled symbolically: a ciphertext remembers the
  derived key, iv and plaintext it was built from, and decryption succeeds
  exactly when key and iv match (AEAD authenticated decryption); a
  bit-flipped ciphertext never decrypts.  PBKDF2 key derivation is a
  deterministic pair of (salt, secret).  SHA-256 fingerprints are an
  injective one-way digest carrier.
* `window.crypto.getRandomValues` draws are modelled by a monotone
  counter `rng`; distinct draws yield distinct values.
* Wall-clock time (`new Date()`) is an explicit `now : Int` parameter
  (milliseconds since epoch); one call of an exported function uses a
  single `now`.
* The recursive retry inside `getSecureJIRACredentials` is given explicit
  fuel (`getSecureGo`); the exported entry point runs with fuel 2, which
  is shown sufficient.
-/

/-- `KEY_ROTATION_INTERVAL = 60 * 60 * 1000` (1 hour), crypto.ts line 172. -/
def KEY_ROTATION_INTERVAL : Int := 60 * 60 * 1000

/-- `CREDENTIAL_EXPIRY = 24 * 60 * 60 * 1000` (24 hours), crypto.ts line 173. -/
def CREDENTIAL_EXPIRY : Int := 24 * 60 * 60 * 1000

/-- `MAX_EVENTS = 100`, settings.ts line 90. -/
def MAX_EVENTS : Nat := 100

/-- `SESSION_TIMEOUT = 8 * 60 * 60 * 1000` (8 hours), settings.ts line 91. -/
def SESSION_TIMEOUT : Int := 8 * 60 * 60 * 1000

/-- `CREDENTIAL_ACCESS_LIMIT = 50`, settings.ts line 92. -/
def CREDENTIAL_ACCESS_LIMIT : Nat := 50

/-- `JIRACredentials` from `types/jira`: the username/token pair. -/
structure JIRACredentials where
  username : String
  token : String
deriving DecidableEq, Repr

/-- SHA-256 digest of a token (`createFingerprint`), modelled symbolically
as an injective one-way digest carrier. -/
structure Fingerprint where
  digestOf : String
deriving DecidableEq, Repr

/-- `createFingerprint(token)`: SHA-256 hex digest of the token. -/
def createFingerprint (token : String) : Fingerprint := ⟨token⟩

/-- A PBKDF2-derived AES key (`getKey`): deterministic in (salt, secret). -/
structure DerivedKey where
  salt : Nat
  secret : Nat
deriving DecidableEq, Repr

/-- `getKey(salt, secret)`: PBKDF2 key derivation, deterministic. -/
def getKey (salt : Nat) (secret : Nat) : DerivedKey := ⟨salt, secret⟩

/-- Symbolic AES-GCM ciphertext: an honest encryption records the key, iv
and plaintext; `flipped` is a ciphertext with one bit flipped (the stored
base64 `data` string after tampering). -/
inductive CipherData where
  | enc (key : DerivedKey) (iv : Nat) (plain : JIRACredentials)
  | flipped (orig : CipherData) (bit : Nat)
deriving DecidableEq, Repr

/-- `window.crypto.subtle.encrypt` with AES-GCM. -/
def subtleEncrypt (key : DerivedKey) (iv : Nat) (plain : JIRACredentials) : CipherData :=
  .enc key iv plain

/-- `window.crypto.subtle.decrypt` with AES-GCM: authenticated decryption
succeeds exactly for the matching key and iv, else throws (here: `none`);
a tampered ciphertext always fails authentication. -/
def subtleDecrypt (key : DerivedKey) (iv : Nat) : CipherData → Option JIRACredentials
  | .enc k i p => if k = key ∧ i = iv then some p else none
  | .flipped _ _ => none

/-- `StoredEncryptedData` (crypto.ts lines 176-185): the JSON blob stored
under the `jira-credentials` key. -/
structure StoredEncryptedData where
  iv : Nat
  salt : Nat
  data : CipherData
  timestamp : Int
  fingerprint : Fingerprint
  keyVersion : Nat
  lastRotation : Int
  rotationSchedule : Int
deriving DecidableEq, Repr

/-- The rotation schedule stored under `key-rotation-schedule`. -/
structure RotationData where
  currentVersion : Nat
  lastRotation : Int
  nextRotation : Int
deriving DecidableEq, Repr

/-- Severity levels of `SecurityEvent`. -/
inductive Severity where
  | low
  | medium
  | high
  | critical
deriving DecidableEq, Repr

/-- `SecurityEvent` (settings.ts lines 68-75). -/
structure SecurityEvent where
  timestamp : Int
  event : String
  details : String
  severity : Severity
  userAgent : String
  sessionId : String
deriving DecidableEq, Repr

/-- `SessionInfo` (settings.ts lines 77-84). -/
structure SessionInfo where
  id : String
  created : Int
  lastActivity : Int
  userAgent : String
  credentialAccess : Nat
deriving DecidableEq, Repr

/-- The in-memory state of the `SessionSecurityManager` singleton. -/
structure MonitorState where
  sessionId : String
  securityEvents : List SecurityEvent
  sessionInfo : SessionInfo
deriving DecidableEq, Repr

/-- `SessionSecurityManager.logSecurityEvent` (settings.ts lines 156-179):
push the event, keep only the most recent `MAX_EVENTS` (JS
`slice(-MAX_EVENTS)`), and touch `lastActivity`. -/
def logSecurityEvent (now : Int) (ua : String) (event : String) (details : String)
    (severity : Severity) (m : MonitorState) : MonitorState :=
  let e : SecurityEvent := ⟨now, event, details, severity, ua, m.sessionId⟩
  let evs := m.securityEvents ++ [e]
  let evs := if MAX_EVENTS < evs.length then evs.drop (evs.length - MAX_EVENTS) else evs
  { m with
    securityEvents := evs
    sessionInfo := { m.sessionInfo with lastActivity := now } }

/-- `SessionSecurityManager.logCredentialAccess` (settings.ts lines
181-194): increment the counter first, deny once it exceeds
`CREDENTIAL_ACCESS_LIMIT`, logging a `high` event on denial and a
`medium` event on success. -/
def logCredentialAccess (now : Int) (ua : String) (operation : String)
    (m : MonitorState) : Bool × MonitorState :=
  let m := { m with
    sessionInfo := { m.sessionInfo with
      credentialAccess := m.sessionInfo.credentialAccess + 1 } }
  if CREDENTIAL_ACCESS_LIMIT < m.sessionInfo.credentialAccess then
    (false, logSecurityEvent now ua "credential_access_limit_exceeded" operation .high m)
  else
    (true, logSecurityEvent now ua "credential_access" operation .medium m)

/-- Summary block of `getSecurityReport`. -/
structure ReportSummary where
  totalEvents : Nat
  criticalEvents : Nat
  highEvents : Nat
  sessionAge : Int
  credentialAccesses : Nat
deriving DecidableEq, Repr

/-- Return value of `getSecurityReport`. -/
structure SecurityReport where
  sessionInfo : SessionInfo
  recentEvents : List SecurityEvent
  summary : ReportSummary
deriving DecidableEq, Repr

/-- `SessionSecurityManager.getSecurityReport` (settings.ts lines 242-254):
read-only projection; `recentEvents` is JS `slice(-20)`, i.e. the last
(at most) 20 events. -/
def getSecurityReport (now : Int) (m : MonitorState) : SecurityReport :=
  { sessionInfo := m.sessionInfo
    recentEvents := m.securityEvents.drop (m.securityEvents.length - 20)
    summary :=
      { totalEvents := m.securityEvents.length
        criticalEvents := (m.securityEvents.filter (fun e => e.severity = .critical)).length
        highEvents := (m.securityEvents.filter (fun e => e.severity = .high)).length
        sessionAge := now - m.sessionInfo.created
        credentialAccesses := m.sessionInfo.credentialAccess } }

/-- The contents of `sessionStorage` seen by the vault: the
`jira-credentials` record, the `key-rotation-schedule` blob, and the
per-version session secrets (`chat-session-key-v{n}`; version 0 stands
for the base `chat-session-key`). -/
structure VaultStorage where
  record : Option StoredEncryptedData
  rotation : Option RotationData
  secrets : List (Nat × Nat)
deriving DecidableEq, Repr

/-- The whole tab state: `sessionStorage`, the monitor singleton, the
random-value supply (a monotone counter), whether the WebCrypto
primitives are available (`verifyBrowserIntegrity`), and the current
`navigator.userAgent`. -/
structure SysState where
  storage : VaultStorage
  monitor : MonitorState
  rng : Nat
  integrityOk : Bool
  userAgent : String
deriving DecidableEq, Repr

/-- One `window.crypto.getRandomValues` draw: fresh value, bump the
counter. -/
def drawFresh (s : SysState) : Nat × SysState :=
  (s.rng, { s with rng := s.rng + 1 })

/-- Association-list lookup of the session secret for a key version. -/
def lookupSecret (v : Nat) (l : List (Nat × Nat)) : Option Nat :=
  (l.find? (fun p => p.1 == v)).map (·.2)

/-- Remove every secret entry for a key version
(`sessionStorage.removeItem` of one `chat-session-key-v{n}`). -/
def removeSecret (v : Nat) (l : List (Nat × Nat)) : List (Nat × Nat) :=
  l.filter (fun p => p.1 != v)

/-- `getSessionPassword(keyVersion)` (crypto.ts lines 190-198): return
the stored secret for that version, generating and storing a fresh one
if absent. -/
def getSessionPassword (v : Nat) (s : SysState) : Nat × SysState :=
  match lookupSecret v s.storage.secrets with
  | some p => (p, s)
  | none =>
    let p := s.rng
    (p, { s with
      rng := s.rng + 1
      storage := { s.storage with secrets := (v, p) :: s.storage.secrets } })

/-- `getCurrentKeyVersion` (crypto.ts lines 201-212): read
`currentVersion` from the rotation schedule (`currentVersion || 1`),
defaulting to 1. -/
def getCurrentKeyVersion (s : SysState) : Nat :=
  match s.storage.rotation with
  | some r => if r.currentVersion = 0 then 1 else r.currentVersion
  | none => 1

/-- `shouldRotateKey` (crypto.ts lines 215-225): true when the rotation
schedule exists and `new Date() > nextRotation`. -/
def shouldRotateKey (now : Int) (s : SysState) : Bool :=
  match s.storage.rotation with
  | some r => decide (r.nextRotation < now)
  | none => false

/-- `rotateEncryptionKey` (crypto.ts lines 228-248): bump the version,
generate the new version's secret, advance the schedule. -/
def rotateEncryptionKey (now : Int) (s : SysState) : Nat × SysState :=
  let newVersion := getCurrentKeyVersion s + 1
  let s := (getSessionPassword newVersion s).2
  (newVersion, { s with storage := { s.storage with
    rotation := some ⟨newVersion, now, now + KEY_ROTATION_INTERVAL⟩ } })

/-- `verifyBrowserIntegrity` (security-headers.ts lines 59-92): whether
the required WebCrypto primitives are available in this environment. -/
def verifyBrowserIntegrity (s : SysState) : Bool := s.integrityOk

/-- Wipe of all application storage performed by
`invalidateSession` (`sessionStorage.clear(); localStorage.clear()`). -/
def clearAllStorage (s : SysState) : SysState :=
  { s with storage := { record := none, rotation := none, secrets := [] } }

/-- `SessionSecurityManager.invalidateSession` (settings.ts lines
221-240): log a `high` event and wipe all storage (the page reload is
outside the model). -/
def invalidateSession (now : Int) (s : SysState) : SysState :=
  let m := logSecurityEvent now s.userAgent "session_invalidated" "" .high s.monitor
  clearAllStorage { s with monitor := m }

/-- `SessionSecurityManager.validateSession` (settings.ts lines 196-219):
false on inactivity timeout or user-agent change, invalidating the
session; true (and no state change) otherwise. -/
def validateSessionSys (now : Int) (s : SysState) : Bool × SysState :=
  if SESSION_TIMEOUT < now - s.monitor.sessionInfo.lastActivity then
    let m := logSecurityEvent now s.userAgent "session_timeout" "" .medium s.monitor
    (false, invalidateSession now { s with monitor := m })
  else if s.userAgent ≠ s.monitor.sessionInfo.userAgent then
    let m := logSecurityEvent now s.userAgent "user_agent_changed" "" .high s.monitor
    (false, invalidateSession now { s with monitor := m })
  else
    (true, s)

/-- `logCredentialAccess` convenience wrapper at system level
(settings.ts lines 275-280). -/
def logCredentialAccessSys (now : Int) (operation : String) (s : SysState) :
    Bool × SysState :=
  ((logCredentialAccess now s.userAgent operation s.monitor).1,
   { s with monitor := (logCredentialAccess now s.userAgent operation s.monitor).2 })

/-- `clearJIRACredentials` (crypto.ts lines 483-508): remove the record,
every per-version secret up to `currentVersion`, the rotation schedule,
and the base session key. -/
def clearJIRACredentials (s : SysState) : SysState :=
  let secrets :=
    match s.storage.rotation with
    | some r => (s.storage.secrets).filter (fun p => p.1 == 0 || r.currentVersion < p.1)
    | none => s.storage.secrets
  { s with storage := { record := none, rotation := none, secrets := removeSecret 0 secrets } }

/-- `reencryptWithNewKey` (crypto.ts lines 251-309): decrypt the stored
record under its own version's secret, re-encrypt under the new
version's secret with fresh salt/iv, keep `timestamp`/`fingerprint`,
delete the old version's secret.  On any failure the catch block only
logs, leaving the record as it was. -/
def reencryptWithNewKey (newKeyVersion : Nat) (now : Int) (s : SysState) : SysState :=
  match s.storage.record with
  | none => s
  | some stored =>
    let oldSecret := (getSessionPassword stored.keyVersion s).1
    let s := (getSessionPassword stored.keyVersion s).2
    let oldKey := getKey stored.salt oldSecret
    match subtleDecrypt oldKey stored.iv stored.data with
    | none => s
    | some credentials =>
      let salt := (drawFresh s).1
      let s := (drawFresh s).2
      let iv := (drawFresh s).1
      let s := (drawFresh s).2
      let newSecret := (getSessionPassword newKeyVersion s).1
      let s := (getSessionPassword newKeyVersion s).2
      let newKey := getKey salt newSecret
      let rd := s.storage.rotation
      let newStored : StoredEncryptedData :=
        { iv := iv
          salt := salt
          data := subtleEncrypt newKey iv credentials
          timestamp := stored.timestamp
          fingerprint := stored.fingerprint
          keyVersion := newKeyVersion
          lastRotation := match rd with | some r => r.lastRotation | none => now
          rotationSchedule :=
            match rd with | some r => r.nextRotation | none => now + KEY_ROTATION_INTERVAL }
      { s with storage := { s.storage with
          record := some newStored
          secrets := removeSecret stored.keyVersion s.storage.secrets } }

/-- Internal errors thrown inside the `try` block of
`setSecureJIRACredentials` (crypto.ts lines 348-358). -/
inductive StoreError where
  | browserIntegrity
  | sessionInvalid
  | accessLimit
deriving DecidableEq, Repr

/-- Tail of the `try` block of `setSecureJIRACredentials` (crypto.ts
lines 384-410): draw fresh salt and iv, derive the key for `keyVersion`,
encrypt, compute the fingerprint and write the `StoredEncryptedData`
blob. -/
def storeWriteRecord (c : JIRACredentials) (now : Int) (keyVersion : Nat)
    (s : SysState) : SysState :=
  let salt := (drawFresh s).1
  let s := (drawFresh s).2
  let iv := (drawFresh s).1
  let s := (drawFresh s).2
  let secret := (getSessionPassword keyVersion s).1
  let s := (getSessionPassword keyVersion s).2
  let key := getKey salt secret
  let data := subtleEncrypt key iv c
  let fp := createFingerprint c.token
  let rd := s.storage.rotation
  let stored : StoredEncryptedData :=
    { iv := iv
      salt := salt
      data := data
      timestamp := now
      fingerprint := fp
      keyVersion := keyVersion
      lastRotation := match rd with | some r => r.lastRotation | none => now
      rotationSchedule :=
        match rd with | some r => r.nextRotation | none => now + KEY_ROTATION_INTERVAL }
  { s with storage := { s.storage with record := some stored } }

/-- The `try` block of `setSecureJIRACredentials` (crypto.ts lines
345-411): security gates, lazy rotation-schedule init, rotation if due,
then `storeWriteRecord`.  The thrown error (if any) is returned
alongside the state at the throw point. -/
def setSecureJIRACredentialsTry (c : JIRACredentials) (now : Int) (s : SysState) :
    Except StoreError Unit × SysState :=
  if ¬ verifyBrowserIntegrity s then (.error .browserIntegrity, s)
  else if ¬ (validateSessionSys now s).1 then
    (.error .sessionInvalid, (validateSessionSys now s).2)
  else
    let s := (validateSessionSys now s).2
    if ¬ (logCredentialAccessSys now "store_credentials" s).1 then
      (.error .accessLimit, (logCredentialAccessSys now "store_credentials" s).2)
    else
      let s := (logCredentialAccessSys now "store_credentials" s).2
      let m := logSecurityEvent now s.userAgent "credential_store_attempt"
        (c.username.take 4 ++ "***") .medium s.monitor
      let s := { s with monitor := m }
      let keyVersion := getCurrentKeyVersion s
      let s :=
        match s.storage.rotation with
        | none => { s with storage := { s.storage with
            rotation := some ⟨keyVersion, now, now + KEY_ROTATION_INTERVAL⟩ } }
        | some _ => s
      if shouldRotateKey now s then
        (.ok (), storeWriteRecord c now (rotateEncryptionKey now s).1
          (reencryptWithNewKey (rotateEncryptionKey now s).1 now (rotateEncryptionKey now s).2))
      else
        (.ok (), storeWriteRecord c now keyVersion s)

/-- The exported `setSecureJIRACredentials`: the catch block swallows
every error (console.error only), so only the state escapes. -/
def setSecureJIRACredentials (c : JIRACredentials) (now : Int) (s : SysState) : SysState :=
  (setSecureJIRACredentialsTry c now s).2

/-- What the caller of the exported `setSecureJIRACredentials` observes:
the catch block (crypto.ts lines 412-414) logs and falls through, so the
promise always resolves to `undefined` — never an error. -/
def setSecureCallerOutcome (c : JIRACredentials) (now : Int) (s : SysState) :
    Except StoreError Unit :=
  match (setSecureJIRACredentialsTry c now s).1 with
  | .ok _ => .ok ()
  | .error _ => .ok ()

/-- `getSecureJIRACredentials` (crypto.ts lines 418-480) with explicit
fuel for the recursive retry after a due rotation: security gates, read
record, expiry check, rotation-and-retry, decrypt (any decryption
failure clears the record and yields null). -/
def getSecureGo : Nat → Int → SysState → Option JIRACredentials × SysState
  | 0, _, s => (none, s)
  | fuel + 1, now, s =>
    if ¬ verifyBrowserIntegrity s then
      let m := logSecurityEvent now s.userAgent "browser_integrity_failure" "" .critical s.monitor
      (none, { s with monitor := m })
    else if ¬ (validateSessionSys now s).1 then
      let s := (validateSessionSys now s).2
      let m := logSecurityEvent now s.userAgent "session_validation_failure" "" .high s.monitor
      (none, { s with monitor := m })
    else
      let s := (validateSessionSys now s).2
      if ¬ (logCredentialAccessSys now "retrieve_credentials" s).1 then
        let s := (logCredentialAccessSys now "retrieve_credentials" s).2
        let m := logSecurityEvent now s.userAgent "credential_access_limit_exceeded" "" .high s.monitor
        (none, { s with monitor := m })
      else
        let s := (logCredentialAccessSys now "retrieve_credentials" s).2
        match s.storage.record with
        | none => (none, s)
        | some stored =>
          if CREDENTIAL_EXPIRY < now - stored.timestamp then
            (none, clearJIRACredentials s)
          else if shouldRotateKey now s then
            getSecureGo fuel now
              (reencryptWithNewKey (rotateEncryptionKey now s).1 now (rotateEncryptionKey now s).2)
          else
            let secret := (getSessionPassword stored.keyVersion s).1
            let s := (getSessionPassword stored.keyVersion s).2
            match subtleDecrypt (getKey stored.salt secret) stored.iv stored.data with
            | none => (none, clearJIRACredentials s)
            | some creds => (some creds, s)

/-- The exported `getSecureJIRACredentials`: fuel 2 realizes the
one-retry recursion (shown sufficient below). -/
def getSecureJIRACredentials (now : Int) (s : SysState) :
    Option JIRACredentials × SysState :=
  getSecureGo 2 now s

/-- Return value of `getJIRACredentialStatus`. -/
structure CredStatus where
  expires : Int
  fingerprint : Fingerprint
  keyVersion : Nat
  nextRotation : Option Int
deriving DecidableEq, Repr

/-- `getJIRACredentialStatus` (crypto.ts lines 561-582): read-only status
projection; clears and returns null when past expiry. -/
def getJIRACredentialStatus (now : Int) (s : SysState) : Option CredStatus × SysState :=
  match s.storage.record with
  | none => (none, s)
  | some stored =>
    let expirationTime := stored.timestamp + CREDENTIAL_EXPIRY
    if expirationTime < now then
      (none, clearJIRACredentials s)
    else
      (some ⟨expirationTime, stored.fingerprint, stored.keyVersion,
         some stored.rotationSchedule⟩, s)

example : (logCredentialAccess 0 "ua" "op"
    ⟨"sid", [], ⟨"sid", 0, 0, "ua", 0⟩⟩).1 = true := by decide

example : (logCredentialAccess 0 "ua" "op"
    ⟨"sid", [], ⟨"sid", 0, 0, "ua", 50⟩⟩).1 = false := by decide

def testState : SysState :=
  { storage := ⟨none, none, []⟩
    monitor := ⟨"sid", [], ⟨"sid", 0, 0, "ua", 0⟩⟩
    rng := 0
    integrityOk := true
    userAgent := "ua" }

def testCreds : JIRACredentials := ⟨"alice", "abc123"⟩

/-! ## Basic lemmas about the monitor -/

theorem logSecurityEvent_credentialAccess (now : Int) (ua ev details : String)
    (sev : Severity) (m : MonitorState) :
    (logSecurityEvent now ua ev details sev m).sessionInfo.credentialAccess
      = m.sessionInfo.credentialAccess := by
  simp [logSecurityEvent]

theorem logSecurityEvent_userAgent (now : Int) (ua ev details : String)
    (sev : Severity) (m : MonitorState) :
    (logSecurityEvent now ua ev details sev m).sessionInfo.userAgent
      = m.sessionInfo.userAgent := by
  simp [logSecurityEvent]

theorem logSecurityEvent_lastActivity (now : Int) (ua ev details : String)
    (sev : Severity) (m : MonitorState) :
    (logSecurityEvent now ua ev details sev m).sessionInfo.lastActivity = now := by
  simp [logSecurityEvent]

theorem logSecurityEvent_getLast (now : Int) (ua ev details : String)
    (sev : Severity) (m : MonitorState) :
    (logSecurityEvent now ua ev details sev m).securityEvents.getLast?
      = some ⟨now, ev, details, sev, ua, m.sessionId⟩ := by
  unfold logSecurityEvent
  set e : SecurityEvent := ⟨now, ev, details, sev, ua, m.sessionId⟩ with he
  by_cases h : MAX_EVENTS < (m.securityEvents ++ [e]).length
  · have hk : (m.securityEvents ++ [e]).length - MAX_EVENTS ≤ m.securityEvents.length := by
      simp only [List.length_append, List.length_cons, List.length_nil, MAX_EVENTS] at h ⊢
      omega
    simp only [if_pos h, List.drop_append_of_le_length hk]
    simp [List.getLast?_append]
  · simp only [if_neg h]
    simp [List.getLast?_append]

theorem logCredentialAccess_count (now : Int) (ua op : String) (m : MonitorState) :
    ((logCredentialAccess now ua op m).2).sessionInfo.credentialAccess
      = m.sessionInfo.credentialAccess + 1 := by
  unfold logCredentialAccess
  by_cases h : CREDENTIAL_ACCESS_LIMIT < m.sessionInfo.credentialAccess + 1 <;>
    simp [h, logSecurityEvent_credentialAccess]

theorem logCredentialAccess_fst (now : Int) (ua op : String) (m : MonitorState) :
    (logCredentialAccess now ua op m).1
      = decide (m.sessionInfo.credentialAccess + 1 ≤ CREDENTIAL_ACCESS_LIMIT) := by
  unfold logCredentialAccess
  by_cases h : CREDENTIAL_ACCESS_LIMIT < m.sessionInfo.credentialAccess + 1
  · have hn : ¬ (m.sessionInfo.credentialAccess + 1 ≤ CREDENTIAL_ACCESS_LIMIT) :=
      Nat.not_le.mpr h
    simp [if_pos h, hn]
  · have hn : m.sessionInfo.credentialAccess + 1 ≤ CREDENTIAL_ACCESS_LIMIT :=
      Nat.not_lt.mp h
    simp [if_neg h, hn]

/-- Iterated calls of `logCredentialAccess`, the `n`-th call happening at
time `times n`: the state after `n` calls. -/
def lcaIter (times : Nat → Int) (ua op : String) : Nat → MonitorState → MonitorState
  | 0, m => m
  | n + 1, m => (logCredentialAccess (times (n + 1)) ua op (lcaIter times ua op n m)).2

theorem lcaIter_count (times : Nat → Int) (ua op : String) (n : Nat) (m : MonitorState) :
    (lcaIter times ua op n m).sessionInfo.credentialAccess
      = m.sessionInfo.credentialAccess + n := by
  induction n with
  | zero => rfl
  | succ k ih => simp [lcaIter, logCredentialAccess_count, ih]; omega

/-- **C6** Access ceiling: starting from a fresh session (counter 0), the
`n`-th call to `logCredentialAccess` returns true exactly when
`n ≤ CREDENTIAL_ACCESS_LIMIT` (50) — so the first 50 calls succeed and
the 51st and every later call is denied; a denied call leaves a
`credential_access_limit_exceeded` event of severity `high` as the newest
audit-log entry; and the counter never resets: after `n` calls it is
exactly `n`, whatever the call times were (no rolling window). -/
theorem c6_access_ceiling (times : Nat → Int) (ua op : String) (n : Nat)
    (m₀ : MonitorState) (h₀ : m₀.sessionInfo.credentialAccess = 0) (hn : 0 < n) :
    ((logCredentialAccess (times n) ua op (lcaIter times ua op (n - 1) m₀)).1
        = decide (n ≤ CREDENTIAL_ACCESS_LIMIT)) ∧
    ((lcaIter times ua op n m₀).sessionInfo.credentialAccess = n) ∧
    (CREDENTIAL_ACCESS_LIMIT < n →
      ∃ e, (lcaIter times ua op n m₀).securityEvents.getLast? = some e ∧
        e.event = "credential_access_limit_exceeded" ∧ e.severity = .high) := by
  obtain ⟨k, rfl⟩ : ∃ k, n = k + 1 := ⟨n - 1, by omega⟩
  refine ⟨?_, ?_, ?_⟩
  · simp [logCredentialAccess_fst, lcaIter_count, h₀]
  · rw [lcaIter_count, h₀, Nat.zero_add]
  · intro hlt
    have hc : (lcaIter times ua op k m₀).sessionInfo.credentialAccess = k := by
      rw [lcaIter_count, h₀, Nat.zero_add]
    show ∃ e, ((logCredentialAccess (times (k + 1)) ua op
        (lcaIter times ua op k m₀)).2).securityEvents.getLast? = some e ∧ _
    unfold logCredentialAccess
    have hcond : CREDENTIAL_ACCESS_LIMIT
        < (lcaIter times ua op k m₀).sessionInfo.credentialAccess + 1 := by
      rw [hc]; exact hlt
    simp only [hcond, if_pos]
    exact ⟨_, logSecurityEvent_getLast _ _ _ _ _ _, rfl, rfl⟩

theorem c6_access_ceiling_witness :
    let m₀ : MonitorState := ⟨"sid", [], ⟨"sid", 0, 0, "ua", 0⟩⟩
    m₀.sessionInfo.credentialAccess = 0 ∧ 0 < 51 ∧
    (((logCredentialAccess 0 "ua" "op" (lcaIter (fun _ => 0) "ua" "op" (51 - 1) m₀)).1
        = decide (51 ≤ CREDENTIAL_ACCESS_LIMIT)) ∧
     ((lcaIter (fun _ => 0) "ua" "op" 51 m₀).sessionInfo.credentialAccess = 51) ∧
     (CREDENTIAL_ACCESS_LIMIT < 51 →
       ∃ e, (lcaIter (fun _ => 0) "ua" "op" 51 m₀).securityEvents.getLast? = some e ∧
         e.event = "credential_access_limit_exceeded" ∧ e.severity = .high)) :=
  ⟨rfl, by decide,
   c6_access_ceiling (fun _ => 0) "ua" "op" 51 ⟨"sid", [], ⟨"sid", 0, 0, "ua", 0⟩⟩ rfl
     (by decide)⟩

/-- **C9** Bounded append-only audit log: if the event list respects the
`MAX_EVENTS` (100) bound, then after any `logSecurityEvent` call it still
does; the new list is a suffix of the old list with the new event
appended (events are only appended; eviction removes only the oldest
entries); the newest event is always retained as the last entry; and
`getSecurityReport().recentEvents` is a suffix (the most recent part) of
the event list of length at most 20. -/
theorem c9_bounded_audit_log (now tr : Int) (ua ev details : String) (sev : Severity)
    (m : MonitorState) (h : m.securityEvents.length ≤ MAX_EVENTS) :
    ((logSecurityEvent now ua ev details sev m).securityEvents.length ≤ MAX_EVENTS) ∧
    ((logSecurityEvent now ua ev details sev m).securityEvents
      <:+ m.securityEvents ++ [⟨now, ev, details, sev, ua, m.sessionId⟩]) ∧
    ((logSecurityEvent now ua ev details sev m).securityEvents.getLast?
      = some ⟨now, ev, details, sev, ua, m.sessionId⟩) ∧
    ((getSecurityReport tr (logSecurityEvent now ua ev details sev m)).recentEvents.length
      ≤ 20) ∧
    ((getSecurityReport tr (logSecurityEvent now ua ev details sev m)).recentEvents
      <:+ (logSecurityEvent now ua ev details sev m).securityEvents) := by
  refine ⟨?_, ?_, logSecurityEvent_getLast now ua ev details sev m, ?_, ?_⟩
  · unfold logSecurityEvent
    by_cases hc : MAX_EVENTS < (m.securityEvents
        ++ [(⟨now, ev, details, sev, ua, m.sessionId⟩ : SecurityEvent)]).length
    · simp only [if_pos hc, List.length_drop]
      omega
    · simp only [if_neg hc]
      omega
  · unfold logSecurityEvent
    by_cases hc : MAX_EVENTS < (m.securityEvents
        ++ [(⟨now, ev, details, sev, ua, m.sessionId⟩ : SecurityEvent)]).length
    · simp only [if_pos hc]
      exact List.drop_suffix _ _
    · simp only [if_neg hc]
      exact List.suffix_refl _
  · simp only [getSecurityReport, List.length_drop]
    omega
  · simp only [getSecurityReport]
    exact List.drop_suffix _ _

theorem c9_bounded_audit_log_witness :
    let m : MonitorState := ⟨"sid", [], ⟨"sid", 0, 0, "ua", 0⟩⟩
    m.securityEvents.length ≤ MAX_EVENTS ∧
    (((logSecurityEvent 3 "ua" "evt" "d" .low m).securityEvents.length ≤ MAX_EVENTS) ∧
     ((logSecurityEvent 3 "ua" "evt" "d" .low m).securityEvents
       <:+ m.securityEvents ++ [⟨3, "evt", "d", .low, "ua", m.sessionId⟩]) ∧
     ((logSecurityEvent 3 "ua" "evt" "d" .low m).securityEvents.getLast?
       = some ⟨3, "evt", "d", .low, "ua", m.sessionId⟩) ∧
     ((getSecurityReport 7 (logSecurityEvent 3 "ua" "evt" "d" .low m)).recentEvents.length
       ≤ 20) ∧
     ((getSecurityReport 7 (logSecurityEvent 3 "ua" "evt" "d" .low m)).recentEvents
       <:+ (logSecurityEvent 3 "ua" "evt" "d" .low m).securityEvents)) :=
  ⟨by decide,
   c9_bounded_audit_log 3 7 "ua" "evt" "d" .low ⟨"sid", [], ⟨"sid", 0, 0, "ua", 0⟩⟩
     (by decide)⟩

/-! ## Frame and specification lemmas for the vault operations -/

theorem drawFresh_monitor (s : SysState) : ((drawFresh s).2).monitor = s.monitor := rfl

theorem drawFresh_storage (s : SysState) : ((drawFresh s).2).storage = s.storage := rfl

theorem drawFresh_integrity (s : SysState) :
    ((drawFresh s).2).integrityOk = s.integrityOk := rfl

theorem drawFresh_userAgent (s : SysState) :
    ((drawFresh s).2).userAgent = s.userAgent := rfl

theorem getSessionPassword_monitor (v : Nat) (s : SysState) :
    ((getSessionPassword v s).2).monitor = s.monitor := by
  unfold getSessionPassword
  cases h : lookupSecret v s.storage.secrets <;> simp [h]

theorem getSessionPassword_integrity (v : Nat) (s : SysState) :
    ((getSessionPassword v s).2).integrityOk = s.integrityOk := by
  unfold getSessionPassword
  cases h : lookupSecret v s.storage.secrets <;> simp [h]

theorem getSessionPassword_userAgent (v : Nat) (s : SysState) :
    ((getSessionPassword v s).2).userAgent = s.userAgent := by
  unfold getSessionPassword
  cases h : lookupSecret v s.storage.secrets <;> simp [h]

theorem getSessionPassword_record (v : Nat) (s : SysState) :
    ((getSessionPassword v s).2).storage.record = s.storage.record := by
  unfold getSessionPassword
  cases h : lookupSecret v s.storage.secrets <;> simp [h]

theorem getSessionPassword_rotation (v : Nat) (s : SysState) :
    ((getSessionPassword v s).2).storage.rotation = s.storage.rotation := by
  unfold getSessionPassword
  cases h : lookupSecret v s.storage.secrets <;> simp [h]

theorem getSessionPassword_of_lookup (v p : Nat) (s : SysState)
    (h : lookupSecret v s.storage.secrets = some p) :
    getSessionPassword v s = (p, s) := by
  unfold getSessionPassword
  simp [h]

theorem getSessionPassword_lookup (v : Nat) (s : SysState) :
    lookupSecret v ((getSessionPassword v s).2).storage.secrets
      = some (getSessionPassword v s).1 := by
  unfold getSessionPassword
  cases h : lookupSecret v s.storage.secrets with
  | some p => simp [h]
  | none => simp [h, lookupSecret]

theorem validateSessionSys_snd_of_true (now : Int) (s : SysState)
    (h : (validateSessionSys now s).1 = true) : (validateSessionSys now s).2 = s := by
  unfold validateSessionSys at *
  by_cases h1 : SESSION_TIMEOUT < now - s.monitor.sessionInfo.lastActivity
  · simp [h1] at h
  · by_cases h2 : s.userAgent ≠ s.monitor.sessionInfo.userAgent
    · simp [h1, h2] at h
    · simp [h1, h2]

theorem validateSessionSys_of_checks (now : Int) (s : SysState)
    (h1 : now - s.monitor.sessionInfo.lastActivity ≤ SESSION_TIMEOUT)
    (h2 : s.userAgent = s.monitor.sessionInfo.userAgent) :
    validateSessionSys now s = (true, s) := by
  unfold validateSessionSys
  simp [Int.not_lt.mpr h1, h2]

theorem logCredentialAccessSys_fst (now : Int) (op : String) (s : SysState) :
    (logCredentialAccessSys now op s).1
      = decide (s.monitor.sessionInfo.credentialAccess + 1 ≤ CREDENTIAL_ACCESS_LIMIT) := by
  unfold logCredentialAccessSys
  exact logCredentialAccess_fst now s.userAgent op s.monitor

theorem logCredentialAccessSys_storage (now : Int) (op : String) (s : SysState) :
    ((logCredentialAccessSys now op s).2).storage = s.storage := rfl

theorem logCredentialAccessSys_rng (now : Int) (op : String) (s : SysState) :
    ((logCredentialAccessSys now op s).2).rng = s.rng := rfl

theorem logCredentialAccessSys_integrity (now : Int) (op : String) (s : SysState) :
    ((logCredentialAccessSys now op s).2).integrityOk = s.integrityOk := rfl

theorem logCredentialAccessSys_userAgent (now : Int) (op : String) (s : SysState) :
    ((logCredentialAccessSys now op s).2).userAgent = s.userAgent := rfl

theorem logCredentialAccessSys_count (now : Int) (op : String) (s : SysState) :
    ((logCredentialAccessSys now op s).2).monitor.sessionInfo.credentialAccess
      = s.monitor.sessionInfo.credentialAccess + 1 := by
  unfold logCredentialAccessSys
  exact logCredentialAccess_count now s.userAgent op s.monitor

theorem logCredentialAccess_lastActivity (now : Int) (ua op : String) (m : MonitorState) :
    ((logCredentialAccess now ua op m).2).sessionInfo.lastActivity = now := by
  unfold logCredentialAccess
  by_cases h : CREDENTIAL_ACCESS_LIMIT < m.sessionInfo.credentialAccess + 1 <;>
    simp [h, logSecurityEvent_lastActivity]

theorem logCredentialAccess_userAgent_snapshot (now : Int) (ua op : String)
    (m : MonitorState) :
    ((logCredentialAccess now ua op m).2).sessionInfo.userAgent
      = m.sessionInfo.userAgent := by
  unfold logCredentialAccess
  by_cases h : CREDENTIAL_ACCESS_LIMIT < m.sessionInfo.credentialAccess + 1 <;>
    simp [h, logSecurityEvent_userAgent]

theorem logCredentialAccessSys_lastActivity (now : Int) (op : String) (s : SysState) :
    ((logCredentialAccessSys now op s).2).monitor.sessionInfo.lastActivity = now := by
  unfold logCredentialAccessSys
  exact logCredentialAccess_lastActivity now s.userAgent op s.monitor

theorem logCredentialAccessSys_userAgent_snapshot (now : Int) (op : String) (s : SysState) :
    ((logCredentialAccessSys now op s).2).monitor.sessionInfo.userAgent
      = s.monitor.sessionInfo.userAgent := by
  unfold logCredentialAccessSys
  exact logCredentialAccess_userAgent_snapshot now s.userAgent op s.monitor

theorem rotateEncryptionKey_fst (now : Int) (s : SysState) :
    (rotateEncryptionKey now s).1 = getCurrentKeyVersion s + 1 := rfl

theorem rotateEncryptionKey_monitor (now : Int) (s : SysState) :
    ((rotateEncryptionKey now s).2).monitor = s.monitor := by
  unfold rotateEncryptionKey
  simp [getSessionPassword_monitor]

theorem rotateEncryptionKey_integrity (now : Int) (s : SysState) :
    ((rotateEncryptionKey now s).2).integrityOk = s.integrityOk := by
  unfold rotateEncryptionKey
  simp [getSessionPassword_integrity]

theorem rotateEncryptionKey_userAgent (now : Int) (s : SysState) :
    ((rotateEncryptionKey now s).2).userAgent = s.userAgent := by
  unfold rotateEncryptionKey
  simp [getSessionPassword_userAgent]

theorem rotateEncryptionKey_record (now : Int) (s : SysState) :
    ((rotateEncryptionKey now s).2).storage.record = s.storage.record := by
  unfold rotateEncryptionKey
  simp [getSessionPassword_record]

theorem rotateEncryptionKey_rotation (now : Int) (s : SysState) :
    ((rotateEncryptionKey now s).2).storage.rotation
      = some ⟨getCurrentKeyVersion s + 1, now, now + KEY_ROTATION_INTERVAL⟩ := by
  unfold rotateEncryptionKey
  simp

theorem shouldRotateKey_congr (now : Int) (s s' : SysState)
    (h : s'.storage.rotation = s.storage.rotation) :
    shouldRotateKey now s' = shouldRotateKey now s := by
  unfold shouldRotateKey
  rw [h]

theorem clearJIRACredentials_record (s : SysState) :
    (clearJIRACredentials s).storage.record = none := by
  unfold clearJIRACredentials
  cases h : s.storage.rotation <;> simp [h]

theorem reencryptWithNewKey_monitor (v : Nat) (now : Int) (s : SysState) :
    (reencryptWithNewKey v now s).monitor = s.monitor := by
  unfold reencryptWithNewKey
  cases h : s.storage.record with
  | none => simp [h]
  | some stored =>
    simp only [h]
    cases h2 : subtleDecrypt (getKey stored.salt (getSessionPassword stored.keyVersion s).1)
        stored.iv stored.data <;>
      simp [h2, getSessionPassword_monitor, drawFresh_monitor]

theorem reencryptWithNewKey_integrity (v : Nat) (now : Int) (s : SysState) :
    (reencryptWithNewKey v now s).integrityOk = s.integrityOk := by
  unfold reencryptWithNewKey
  cases h : s.storage.record with
  | none => simp [h]
  | some stored =>
    simp only [h]
    cases h2 : subtleDecrypt (getKey stored.salt (getSessionPassword stored.keyVersion s).1)
        stored.iv stored.data <;>
      simp [h2, getSessionPassword_integrity, drawFresh_integrity]

theorem reencryptWithNewKey_userAgent (v : Nat) (now : Int) (s : SysState) :
    (reencryptWithNewKey v now s).userAgent = s.userAgent := by
  unfold reencryptWithNewKey
  cases h : s.storage.record with
  | none => simp [h]
  | some stored =>
    simp only [h]
    cases h2 : subtleDecrypt (getKey stored.salt (getSessionPassword stored.keyVersion s).1)
        stored.iv stored.data <;>
      simp [h2, getSessionPassword_userAgent, drawFresh_userAgent]

theorem reencryptWithNewKey_rotation (v : Nat) (now : Int) (s : SysState) :
    (reencryptWithNewKey v now s).storage.rotation = s.storage.rotation := by
  unfold reencryptWithNewKey
  cases h : s.storage.record with
  | none => simp [h]
  | some stored =>
    simp only [h]
    cases h2 : subtleDecrypt (getKey stored.salt (getSessionPassword stored.keyVersion s).1)
        stored.iv stored.data <;>
      simp [h2, getSessionPassword_rotation, drawFresh_storage]

theorem storeWriteRecord_spec (c : JIRACredentials) (now : Int) (v : Nat) (s : SysState) :
    ∃ st p,
      (storeWriteRecord c now v s).storage.record = some st ∧
      st.data = CipherData.enc (getKey st.salt p) st.iv c ∧
      st.timestamp = now ∧
      st.fingerprint = createFingerprint c.token ∧
      st.keyVersion = v ∧
      lookupSecret st.keyVersion (storeWriteRecord c now v s).storage.secrets = some p ∧
      (storeWriteRecord c now v s).monitor = s.monitor ∧
      (storeWriteRecord c now v s).integrityOk = s.integrityOk ∧
      (storeWriteRecord c now v s).userAgent = s.userAgent ∧
      (storeWriteRecord c now v s).storage.rotation = s.storage.rotation := by
  refine ⟨_, (getSessionPassword v ((drawFresh ((drawFresh s).2)).2)).1,
    rfl, rfl, rfl, rfl, rfl, ?_, ?_, ?_, ?_, ?_⟩
  · show lookupSecret v
      ((getSessionPassword v ((drawFresh ((drawFresh s).2)).2)).2).storage.secrets
      = some (getSessionPassword v ((drawFresh ((drawFresh s).2)).2)).1
    exact getSessionPassword_lookup v _
  · show ((getSessionPassword v ((drawFresh ((drawFresh s).2)).2)).2).monitor = s.monitor
    rw [getSessionPassword_monitor, drawFresh_monitor, drawFresh_monitor]
  · show ((getSessionPassword v ((drawFresh ((drawFresh s).2)).2)).2).integrityOk
      = s.integrityOk
    rw [getSessionPassword_integrity, drawFresh_integrity, drawFresh_integrity]
  · show ((getSessionPassword v ((drawFresh ((drawFresh s).2)).2)).2).userAgent
      = s.userAgent
    rw [getSessionPassword_userAgent, drawFresh_userAgent, drawFresh_userAgent]
  · show ((getSessionPassword v ((drawFresh ((drawFresh s).2)).2)).2).storage.rotation
      = s.storage.rotation
    rw [getSessionPassword_rotation]
    rfl

theorem setSecureTry_success_form (c : JIRACredentials) (now : Int) (s : SysState)
    (hInt : s.integrityOk = true)
    (hSess : (validateSessionSys now s).1 = true)
    (hAcc : s.monitor.sessionInfo.credentialAccess + 1 ≤ CREDENTIAL_ACCESS_LIMIT) :
    ∃ v s₅,
      setSecureJIRACredentialsTry c now s = (.ok (), storeWriteRecord c now v s₅) ∧
      s₅.monitor.sessionInfo.credentialAccess
        = s.monitor.sessionInfo.credentialAccess + 1 ∧
      s₅.monitor.sessionInfo.lastActivity = now ∧
      s₅.monitor.sessionInfo.userAgent = s.monitor.sessionInfo.userAgent ∧
      s₅.integrityOk = s.integrityOk ∧
      s₅.userAgent = s.userAgent := by
  have hv2 := validateSessionSys_snd_of_true now s hSess
  have hlca : (logCredentialAccessSys now "store_credentials" s).1 = true := by
    rw [logCredentialAccessSys_fst]; exact decide_eq_true hAcc
  unfold setSecureJIRACredentialsTry
  simp only [verifyBrowserIntegrity, hInt, hSess, hv2, hlca, not_true, if_false,
    Bool.not_true, ite_false]
  set t := (logCredentialAccessSys now "store_credentials" s).2 with ht
  set m1 := logSecurityEvent now t.userAgent "credential_store_attempt"
    (c.username.take 4 ++ "***") Severity.medium t.monitor with hm1
  have hm1count : m1.sessionInfo.credentialAccess
      = s.monitor.sessionInfo.credentialAccess + 1 := by
    rw [hm1, logSecurityEvent_credentialAccess, ht, logCredentialAccessSys_count]
  have hm1last : m1.sessionInfo.lastActivity = now := by
    rw [hm1, logSecurityEvent_lastActivity]
  have hm1ua : m1.sessionInfo.userAgent = s.monitor.sessionInfo.userAgent := by
    rw [hm1, logSecurityEvent_userAgent, ht, logCredentialAccessSys_userAgent_snapshot]
  have htInt : t.integrityOk = s.integrityOk := by
    rw [ht, logCredentialAccessSys_integrity]
  have htUa : t.userAgent = s.userAgent := by
    rw [ht, logCredentialAccessSys_userAgent]
  have hKR : ¬ (now + KEY_ROTATION_INTERVAL < now) := by
    unfold KEY_ROTATION_INTERVAL
    omega
  cases h4 : t.storage.rotation with
  | none =>
    simp only [h4, shouldRotateKey, hKR, decide_eq_true_eq, if_neg, decide_False,
      Bool.false_eq_true, if_false]
    exact ⟨_, _, rfl, hm1count, hm1last, hm1ua, htInt.trans hInt, htUa⟩
  | some rd =>
    simp only [h4]
    by_cases h5 : shouldRotateKey now
        { storage := t.storage, monitor := m1, rng := t.rng,
          integrityOk := t.integrityOk, userAgent := t.userAgent } = true
    · rw [if_pos h5]
      refine ⟨_, _, rfl, ?_, ?_, ?_, ?_, ?_⟩
      · rw [reencryptWithNewKey_monitor, rotateEncryptionKey_monitor]
        exact hm1count
      · rw [reencryptWithNewKey_monitor, rotateEncryptionKey_monitor]
        exact hm1last
      · rw [reencryptWithNewKey_monitor, rotateEncryptionKey_monitor]
        exact hm1ua
      · rw [reencryptWithNewKey_integrity, rotateEncryptionKey_integrity]
        exact htInt.trans hInt
      · rw [reencryptWithNewKey_userAgent, rotateEncryptionKey_userAgent]
        exact htUa
    · rw [if_neg h5]
      exact ⟨_, _, rfl, hm1count, hm1last, hm1ua, htInt.trans hInt, htUa⟩

theorem getSecureGo_success (fuel : Nat) (now : Int) (s : SysState)
    (st : StoredEncryptedData) (p : Nat) (c : JIRACredentials)
    (hInt : s.integrityOk = true)
    (hSess : (validateSessionSys now s).1 = true)
    (hAcc : s.monitor.sessionInfo.credentialAccess + 1 ≤ CREDENTIAL_ACCESS_LIMIT)
    (hRec : s.storage.record = some st)
    (hData : st.data = CipherData.enc (getKey st.salt p) st.iv c)
    (hSec : lookupSecret st.keyVersion s.storage.secrets = some p)
    (hExp : ¬ CREDENTIAL_EXPIRY < now - st.timestamp)
    (hRot : shouldRotateKey now s = false) :
    ∃ s', getSecureGo (fuel + 1) now s = (some c, s') := by
  have hv2 := validateSessionSys_snd_of_true now s hSess
  have hlca : (logCredentialAccessSys now "retrieve_credentials" s).1 = true := by
    rw [logCredentialAccessSys_fst]; exact decide_eq_true hAcc
  simp only [getSecureGo, verifyBrowserIntegrity, hInt, hSess, hv2, hlca, not_true,
    Bool.not_true, ite_false, if_false]
  set t := (logCredentialAccessSys now "retrieve_credentials" s).2 with ht
  have htst : t.storage = s.storage := by rw [ht, logCredentialAccessSys_storage]
  have htrec : t.storage.record = some st := by rw [htst, hRec]
  simp only [htrec]
  rw [if_neg hExp]
  have htrot : shouldRotateKey now t = false := by
    rw [shouldRotateKey_congr now s t (by rw [htst]), hRot]
  simp only [htrot, Bool.false_eq_true, if_false]
  have hgsp : getSessionPassword st.keyVersion t = (p, t) :=
    getSessionPassword_of_lookup st.keyVersion p t (by rw [htst]; exact hSec)
  simp only [hgsp, hData, subtleDecrypt, and_self, if_pos]
  exact ⟨t, rfl⟩

/-- **C1** Round-trip: for every credential pair, if browser integrity
holds, the session validates for both calls, the credential-access
counter stays at least two below its ceiling, and no rotation becomes
due and no expiry elapses between the calls, then
`getSecureJIRACredentials` invoked right after
`setSecureJIRACredentials` returns exactly the stored pair. -/
theorem c1_store_retrieve_roundtrip (c : JIRACredentials) (t1 t2 : Int) (s0 : SysState)
    (hInt : s0.integrityOk = true)
    (hSess1 : (validateSessionSys t1 s0).1 = true)
    (hCount : s0.monitor.sessionInfo.credentialAccess + 2 ≤ CREDENTIAL_ACCESS_LIMIT)
    (hSess2 : (validateSessionSys t2 (setSecureJIRACredentials c t1 s0)).1 = true)
    (hRot : shouldRotateKey t2 (setSecureJIRACredentials c t1 s0) = false)
    (hExp : t2 - t1 ≤ CREDENTIAL_EXPIRY) :
    (getSecureJIRACredentials t2 (setSecureJIRACredentials c t1 s0)).1 = some c := by
  obtain ⟨v, s5, heq, hct, hla, hua, hin, hug⟩ :=
    setSecureTry_success_form c t1 s0 hInt hSess1 (by omega)
  have hs1 : setSecureJIRACredentials c t1 s0 = storeWriteRecord c t1 v s5 := by
    unfold setSecureJIRACredentials
    rw [heq]
  obtain ⟨st, p, hrec, hdata, hts, hfp, hkv, hlook, hmon, hintg, huag, hrotg⟩ :=
    storeWriteRecord_spec c t1 v s5
  rw [hs1] at hSess2 hRot ⊢
  obtain ⟨s', hfin⟩ := getSecureGo_success 1 t2 (storeWriteRecord c t1 v s5) st p c
    (by rw [hintg, hin, hInt]) hSess2
    (by rw [hmon, hct]; omega) hrec hdata hlook
    (by rw [hts]; exact Int.not_lt.mpr hExp) hRot
  show (getSecureGo (1 + 1) t2 (storeWriteRecord c t1 v s5)).1 = some c
  rw [hfin]

theorem c1_store_retrieve_roundtrip_witness :
    (getSecureJIRACredentials 6 (setSecureJIRACredentials ⟨"alice", "abc123"⟩ 5 testState)).1
      = some ⟨"alice", "abc123"⟩ :=
  c1_store_retrieve_roundtrip ⟨"alice", "abc123"⟩ 5 6 testState rfl (by decide)
    (by decide) (by decide) (by decide) (by decide)

theorem getSecureGo_expired (fuel : Nat) (now : Int) (s : SysState)
    (st : StoredEncryptedData)
    (hInt : s.integrityOk = true)
    (hSess : (validateSessionSys now s).1 = true)
    (hAcc : s.monitor.sessionInfo.credentialAccess + 1 ≤ CREDENTIAL_ACCESS_LIMIT)
    (hRec : s.storage.record = some st)
    (hExp : CREDENTIAL_EXPIRY < now - st.timestamp) :
    ∃ s', getSecureGo (fuel + 1) now s = (none, s') ∧ s'.storage.record = none := by
  have hv2 := validateSessionSys_snd_of_true now s hSess
  have hlca : (logCredentialAccessSys now "retrieve_credentials" s).1 = true := by
    rw [logCredentialAccessSys_fst]; exact decide_eq_true hAcc
  simp only [getSecureGo, verifyBrowserIntegrity, hInt, hSess, hv2, hlca, not_true,
    Bool.not_true, ite_false, if_false]
  set t := (logCredentialAccessSys now "retrieve_credentials" s).2 with ht
  have htst : t.storage = s.storage := by rw [ht, logCredentialAccessSys_storage]
  have htrec : t.storage.record = some st := by rw [htst, hRec]
  simp only [htrec]
  rw [if_pos hExp]
  exact ⟨clearJIRACredentials t, rfl, clearJIRACredentials_record t⟩

/-- **C5** Expiry: for a stored record whose `timestamp` lies more than
`CREDENTIAL_EXPIRY` (24 hours) in the past, an authorized
`getSecureJIRACredentials` call returns null and clears the stored
record, and `getJIRACredentialStatus` likewise returns null and clears
the stored record. -/
theorem c5_expiry (now : Int) (s : SysState) (st : StoredEncryptedData)
    (hInt : s.integrityOk = true)
    (hSess : (validateSessionSys now s).1 = true)
    (hAcc : s.monitor.sessionInfo.credentialAccess + 1 ≤ CREDENTIAL_ACCESS_LIMIT)
    (hRec : s.storage.record = some st)
    (hExp : CREDENTIAL_EXPIRY < now - st.timestamp) :
    ((getSecureJIRACredentials now s).1 = none ∧
     ((getSecureJIRACredentials now s).2).storage.record = none) ∧
    ((getJIRACredentialStatus now s).1 = none ∧
     ((getJIRACredentialStatus now s).2).storage.record = none) := by
  constructor
  · obtain ⟨s', heq, hrec'⟩ := getSecureGo_expired 1 now s st hInt hSess hAcc hRec hExp
    have : getSecureJIRACredentials now s = (none, s') := heq
    rw [this]
    exact ⟨rfl, hrec'⟩
  · have hcond : st.timestamp + CREDENTIAL_EXPIRY < now := by omega
    unfold getJIRACredentialStatus
    simp only [hRec]
    rw [if_pos hcond]
    exact ⟨rfl, clearJIRACredentials_record s⟩

/-- A concrete vault state holding a record whose timestamp lies exactly
`CREDENTIAL_EXPIRY + 1` milliseconds before time `86400006`. -/
def expiredTestState : SysState :=
  { storage :=
      { record := some ⟨1, 0, CipherData.enc (getKey 0 2) 1 testCreds, 5,
          ⟨"abc123"⟩, 1, 5, 3600005⟩
        rotation := some ⟨1, 5, 3600005⟩
        secrets := [(1, 2)] }
    monitor := ⟨"sid", [], ⟨"sid", 0, 86400000, "ua", 0⟩⟩
    rng := 3
    integrityOk := true
    userAgent := "ua" }

theorem c5_expiry_witness :
    expiredTestState.integrityOk = true ∧
    (validateSessionSys 86400006 expiredTestState).1 = true ∧
    expiredTestState.monitor.sessionInfo.credentialAccess + 1 ≤ CREDENTIAL_ACCESS_LIMIT ∧
    CREDENTIAL_EXPIRY < 86400006 - (5 : Int) ∧
    (((getSecureJIRACredentials 86400006 expiredTestState).1 = none ∧
      ((getSecureJIRACredentials 86400006 expiredTestState).2).storage.record = none) ∧
     ((getJIRACredentialStatus 86400006 expiredTestState).1 = none ∧
      ((getJIRACredentialStatus 86400006 expiredTestState).2).storage.record = none)) :=
  ⟨rfl, by decide, by decide, by decide,
   c5_expiry 86400006 expiredTestState
     ⟨1, 0, CipherData.enc (getKey 0 2) 1 testCreds, 5, ⟨"abc123"⟩, 1, 5, 3600005⟩
     rfl (by decide) (by decide) rfl (by decide)⟩

/-! ## Tampering -/

/-- Flip bit `k` of the binary representation of `n` (a single-bit flip
of a stored base64 field after decoding). -/
def flipBit (n k : Nat) : Nat := n ^^^ (2 ^ k)

theorem flipBit_ne (n k : Nat) : flipBit n k ≠ n := by
  unfold flipBit
  intro h
  have h2 : 2 ^ k = 0 := by
    calc 2 ^ k = n ^^^ (n ^^^ 2 ^ k) := by
          rw [← Nat.xor_assoc, Nat.xor_self, Nat.zero_xor]
    _ = n ^^^ n := by rw [h]
    _ = 0 := Nat.xor_self n
  have := Nat.two_pow_pos k
  omega

/-- Which stored field of the `EncryptedRecord` a bit flip is applied to. -/
inductive TamperField where
  | data
  | iv
  | salt
deriving DecidableEq, Repr

/-- Apply a single-bit flip to one field of a stored record. -/
def tamperRecord (f : TamperField) (k : Nat) (r : StoredEncryptedData) :
    StoredEncryptedData :=
  match f with
  | .data => { r with data := .flipped r.data k }
  | .iv => { r with iv := flipBit r.iv k }
  | .salt => { r with salt := flipBit r.salt k }

/-- Apply a single-bit flip to one field of the stored record inside the
ephemeral store. -/
def tamperStored (f : TamperField) (k : Nat) (s : SysState) : SysState :=
  { s with storage := { s.storage with
      record := s.storage.record.map (tamperRecord f k) } }

theorem tamperRecord_keyVersion (f : TamperField) (k : Nat) (r : StoredEncryptedData) :
    (tamperRecord f k r).keyVersion = r.keyVersion := by
  cases f <;> rfl

theorem tamperRecord_timestamp (f : TamperField) (k : Nat) (r : StoredEncryptedData) :
    (tamperRecord f k r).timestamp = r.timestamp := by
  cases f <;> rfl

/-- Authenticated decryption fails on every single-bit-flipped record:
whichever of `data`, `iv`, `salt` was tampered with, the AES-GCM
authentication check rejects. -/
theorem tamper_decrypt_none (f : TamperField) (k : Nat) (r : StoredEncryptedData)
    (p : Nat) (c : JIRACredentials)
    (hData : r.data = CipherData.enc (getKey r.salt p) r.iv c) :
    subtleDecrypt (getKey (tamperRecord f k r).salt p) (tamperRecord f k r).iv
      (tamperRecord f k r).data = none := by
  cases f
  · simp [tamperRecord, subtleDecrypt]
  · simp only [tamperRecord, hData, subtleDecrypt]
    rw [if_neg]
    rintro ⟨-, h2⟩
    exact flipBit_ne r.iv k h2.symm
  · simp only [tamperRecord, hData, subtleDecrypt]
    rw [if_neg]
    rintro ⟨h1, -⟩
    have : r.salt = flipBit r.salt k := congrArg DerivedKey.salt h1
    exact flipBit_ne r.salt k this.symm

theorem getSecureGo_decrypt_fail (fuel : Nat) (now : Int) (s : SysState)
    (st : StoredEncryptedData) (p : Nat)
    (hInt : s.integrityOk = true)
    (hSess : (validateSessionSys now s).1 = true)
    (hAcc : s.monitor.sessionInfo.credentialAccess + 1 ≤ CREDENTIAL_ACCESS_LIMIT)
    (hRec : s.storage.record = some st)
    (hSec : lookupSecret st.keyVersion s.storage.secrets = some p)
    (hDec : subtleDecrypt (getKey st.salt p) st.iv st.data = none)
    (hExp : ¬ CREDENTIAL_EXPIRY < now - st.timestamp)
    (hRot : shouldRotateKey now s = false) :
    ∃ s', getSecureGo (fuel + 1) now s = (none, s') ∧ s'.storage.record = none := by
  have hv2 := validateSessionSys_snd_of_true now s hSess
  have hlca : (logCredentialAccessSys now "retrieve_credentials" s).1 = true := by
    rw [logCredentialAccessSys_fst]; exact decide_eq_true hAcc
  simp only [getSecureGo, verifyBrowserIntegrity, hInt, hSess, hv2, hlca, not_true,
    Bool.not_true, ite_false, if_false]
  set t := (logCredentialAccessSys now "retrieve_credentials" s).2 with ht
  have htst : t.storage = s.storage := by rw [ht, logCredentialAccessSys_storage]
  have htrec : t.storage.record = some st := by rw [htst, hRec]
  simp only [htrec]
  rw [if_neg hExp]
  have htrot : shouldRotateKey now t = false := by
    rw [shouldRotateKey_congr now s t (by rw [htst]), hRot]
  simp only [htrot, Bool.false_eq_true, if_false]
  have hgsp : getSessionPassword st.keyVersion t = (p, t) :=
    getSessionPassword_of_lookup st.keyVersion p t (by rw [htst]; exact hSec)
  simp only [hgsp, hDec]
  exact ⟨clearJIRACredentials t, rfl, clearJIRACredentials_record t⟩

/-- **C2** Tamper detection: for every stored `EncryptedRecord`
(an honest encryption of a credential pair under the stored salt, iv and
key version) and every single-bit flip applied to its `data`, `iv` or
`salt` field, an authorized `getSecureJIRACredentials` on the tampered
store (with the record not expired and no rotation due) returns null —
never plaintext — and removes the stored record. -/
theorem c2_tamper_detection (f : TamperField) (k : Nat) (now : Int) (s : SysState)
    (st : StoredEncryptedData) (p : Nat) (c : JIRACredentials)
    (hRec : s.storage.record = some st)
    (hData : st.data = CipherData.enc (getKey st.salt p) st.iv c)
    (hSec : lookupSecret st.keyVersion s.storage.secrets = some p)
    (hInt : s.integrityOk = true)
    (hSess : (validateSessionSys now (tamperStored f k s)).1 = true)
    (hAcc : s.monitor.sessionInfo.credentialAccess + 1 ≤ CREDENTIAL_ACCESS_LIMIT)
    (hExp : ¬ CREDENTIAL_EXPIRY < now - st.timestamp)
    (hRot : shouldRotateKey now (tamperStored f k s) = false) :
    (getSecureJIRACredentials now (tamperStored f k s)).1 = none ∧
    ((getSecureJIRACredentials now (tamperStored f k s)).2).storage.record = none := by
  have hRec' : (tamperStored f k s).storage.record = some (tamperRecord f k st) := by
    unfold tamperStored
    simp [hRec]
  have hSec' : lookupSecret (tamperRecord f k st).keyVersion
      (tamperStored f k s).storage.secrets = some p := by
    rw [tamperRecord_keyVersion]
    exact hSec
  have hDec := tamper_decrypt_none f k st p c hData
  have hExp' : ¬ CREDENTIAL_EXPIRY < now - (tamperRecord f k st).timestamp := by
    rw [tamperRecord_timestamp]
    exact hExp
  obtain ⟨s', heq, hrec'⟩ := getSecureGo_decrypt_fail 1 now (tamperStored f k s)
    (tamperRecord f k st) p hInt hSess hAcc hRec' hSec' hDec hExp' hRot
  have : getSecureJIRACredentials now (tamperStored f k s) = (none, s') := heq
  rw [this]
  exact ⟨rfl, hrec'⟩

/-- A concrete healthy vault state holding a decryptable record,
used as the base state for concrete witnesses. -/
def storedTestState : SysState :=
  { storage :=
      { record := some ⟨1, 0, CipherData.enc (getKey 0 2) 1 testCreds, 5,
          ⟨"abc123"⟩, 1, 5, 3600005⟩
        rotation := some ⟨1, 5, 3600005⟩
        secrets := [(1, 2)] }
    monitor := ⟨"sid", [], ⟨"sid", 0, 0, "ua", 0⟩⟩
    rng := 3
    integrityOk := true
    userAgent := "ua" }

theorem c2_tamper_detection_witness :
    storedTestState.storage.record = some ⟨1, 0, CipherData.enc (getKey 0 2) 1 testCreds,
      5, ⟨"abc123"⟩, 1, 5, 3600005⟩ ∧
    (validateSessionSys 6 (tamperStored .data 0 storedTestState)).1 = true ∧
    ((getSecureJIRACredentials 6 (tamperStored .data 0 storedTestState)).1 = none ∧
     ((getSecureJIRACredentials 6 (tamperStored .data 0 storedTestState)).2).storage.record
       = none) :=
  ⟨rfl, by decide,
   c2_tamper_detection .data 0 6 storedTestState
     ⟨1, 0, CipherData.enc (getKey 0 2) 1 testCreds, 5, ⟨"abc123"⟩, 1, 5, 3600005⟩
     2 testCreds rfl rfl (by decide) rfl (by decide) (by decide) (by decide) (by decide)⟩

/-! ## Bounded rotation retry -/

theorem shouldRotateKey_after_rotate (now t : Int) (s : SysState)
    (h : t ≤ now + KEY_ROTATION_INTERVAL) :
    shouldRotateKey t ((rotateEncryptionKey now s).2) = false := by
  unfold shouldRotateKey
  rw [rotateEncryptionKey_rotation]
  simp [Int.not_lt.mpr h]

theorem getSecureGo_fuel_of_not_due (f : Nat) (now : Int) (s : SysState)
    (hRot : shouldRotateKey now s = false) :
    getSecureGo (f + 1) now s = getSecureGo 1 now s := by
  cases hb1 : verifyBrowserIntegrity s with
  | false => simp [getSecureGo, hb1]
  | true =>
    cases hb2 : (validateSessionSys now s).1 with
    | false => simp [getSecureGo, hb1, hb2]
    | true =>
      have hv2 := validateSessionSys_snd_of_true now s hb2
      cases hb3 : (logCredentialAccessSys now "retrieve_credentials"
          ((validateSessionSys now s).2)).1 with
      | false => simp [getSecureGo, hb1, hb2, hb3]
      | true =>
        cases hb4 : ((logCredentialAccessSys now "retrieve_credentials"
            ((validateSessionSys now s).2)).2).storage.record with
        | none => simp [getSecureGo, hb1, hb2, hb3, hb4]
        | some stored =>
          by_cases hb5 : CREDENTIAL_EXPIRY < now - stored.timestamp
          · simp [getSecureGo, hb1, hb2, hb3, hb4, hb5]
          · have hr : shouldRotateKey now ((logCredentialAccessSys now
                "retrieve_credentials" ((validateSessionSys now s).2)).2) = false := by
              rw [shouldRotateKey_congr now s _
                (by rw [logCredentialAccessSys_storage, hv2])]
              exact hRot
            simp [getSecureGo, hb1, hb2, hb3, hb4, hb5, hr]

theorem getSecureGo_rotate_step (fuel : Nat) (now : Int) (s : SysState)
    (stored : StoredEncryptedData)
    (hb1 : verifyBrowserIntegrity s = true)
    (hb2 : (validateSessionSys now s).1 = true)
    (hb3 : (logCredentialAccessSys now "retrieve_credentials"
        ((validateSessionSys now s).2)).1 = true)
    (hb4 : ((logCredentialAccessSys now "retrieve_credentials"
        ((validateSessionSys now s).2)).2).storage.record = some stored)
    (hb5 : ¬ CREDENTIAL_EXPIRY < now - stored.timestamp)
    (hb6 : shouldRotateKey now ((logCredentialAccessSys now "retrieve_credentials"
        ((validateSessionSys now s).2)).2) = true) :
    getSecureGo (fuel + 1) now s
      = getSecureGo fuel now
          (reencryptWithNewKey
            (rotateEncryptionKey now ((logCredentialAccessSys now "retrieve_credentials"
              ((validateSessionSys now s).2)).2)).1
            now
            (rotateEncryptionKey now ((logCredentialAccessSys now "retrieve_credentials"
              ((validateSessionSys now s).2)).2)).2) := by
  simp only [getSecureGo]
  simp [hb1, hb2, hb3, hb4, hb5, hb6]

theorem getSecureGo_fuel_two_stable (f : Nat) (now : Int) (s : SysState) :
    getSecureGo (f + 2) now s = getSecureGo 2 now s := by
  cases hb1 : verifyBrowserIntegrity s with
  | false => simp [getSecureGo, hb1]
  | true =>
    cases hb2 : (validateSessionSys now s).1 with
    | false => simp [getSecureGo, hb1, hb2]
    | true =>
      have hv2 := validateSessionSys_snd_of_true now s hb2
      cases hb3 : (logCredentialAccessSys now "retrieve_credentials"
          ((validateSessionSys now s).2)).1 with
      | false => simp [getSecureGo, hb1, hb2, hb3]
      | true =>
        cases hb4 : ((logCredentialAccessSys now "retrieve_credentials"
            ((validateSessionSys now s).2)).2).storage.record with
        | none => simp [getSecureGo, hb1, hb2, hb3, hb4]
        | some stored =>
          by_cases hb5 : CREDENTIAL_EXPIRY < now - stored.timestamp
          · simp [getSecureGo, hb1, hb2, hb3, hb4, hb5]
          · cases hb6 : shouldRotateKey now ((logCredentialAccessSys now
                "retrieve_credentials" ((validateSessionSys now s).2)).2) with
            | false => simp [getSecureGo, hb1, hb2, hb3, hb4, hb5, hb6]
            | true =>
              have hrot3 : shouldRotateKey now
                  (reencryptWithNewKey
                    (rotateEncryptionKey now ((logCredentialAccessSys now
                      "retrieve_credentials" ((validateSessionSys now s).2)).2)).1
                    now
                    (rotateEncryptionKey now ((logCredentialAccessSys now
                      "retrieve_credentials" ((validateSessionSys now s).2)).2)).2)
                  = false := by
                rw [shouldRotateKey_congr now
                  ((rotateEncryptionKey now ((logCredentialAccessSys now
                    "retrieve_credentials" ((validateSessionSys now s).2)).2)).2) _
                  (reencryptWithNewKey_rotation _ _ _)]
                exact shouldRotateKey_after_rotate now now _
                  (by unfold KEY_ROTATION_INTERVAL; omega)
              show getSecureGo (f + 1 + 1) now s = getSecureGo (1 + 1) now s
              rw [getSecureGo_rotate_step (f + 1) now s stored hb1 hb2 hb3 hb4 hb5 hb6,
                getSecureGo_rotate_step 1 now s stored hb1 hb2 hb3 hb4 hb5 hb6]
              exact getSecureGo_fuel_of_not_due f now _ hrot3

/-- **C8** Bounded retrieve retry: immediately after `rotateEncryptionKey`
runs at time `now`, `shouldRotateKey` stays false for every time up to
`now + KEY_ROTATION_INTERVAL`, so the recursive retry inside
`getSecureJIRACredentials` cannot trigger a second rotation within the
same call; consequently running the retrieval with any amount of extra
fuel gives exactly the result of the exported fuel-2 run — the recursion
terminates at depth at most 2. -/
theorem c8_bounded_retry (f : Nat) (now : Int) (s : SysState) :
    (∀ t : Int, t ≤ now + KEY_ROTATION_INTERVAL →
       shouldRotateKey t ((rotateEncryptionKey now s).2) = false) ∧
    getSecureGo (f + 2) now s = getSecureJIRACredentials now s :=
  ⟨fun t ht => shouldRotateKey_after_rotate now t s ht,
   getSecureGo_fuel_two_stable f now s⟩

theorem c8_bounded_retry_witness :
    (0 : Int) ≤ 0 + KEY_ROTATION_INTERVAL ∧
    shouldRotateKey 0 ((rotateEncryptionKey 0 testState).2) = false ∧
    getSecureGo (5 + 2) 0 testState = getSecureJIRACredentials 0 testState :=
  ⟨by decide, (c8_bounded_retry 5 0 testState).1 0 (by decide),
   (c8_bounded_retry 5 0 testState).2⟩

/-! ## Store failure surface -/

theorem validateSessionSys_record_of_false (now : Int) (s : SysState)
    (h : (validateSessionSys now s).1 = false) :
    ((validateSessionSys now s).2).storage.record = none := by
  unfold validateSessionSys at *
  by_cases h1 : SESSION_TIMEOUT < now - s.monitor.sessionInfo.lastActivity
  · simp only [if_pos h1]
    rfl
  · by_cases h2 : s.userAgent ≠ s.monitor.sessionInfo.userAgent
    · simp only [if_neg h1, if_pos h2]
      rfl
    · simp [h1, h2] at h

/-- A concrete state whose WebCrypto primitives are unavailable. -/
def badIntegrityState : SysState :=
  { storage := ⟨none, none, []⟩
    monitor := ⟨"sid", [], ⟨"sid", 0, 0, "ua", 0⟩⟩
    rng := 0
    integrityOk := false
    userAgent := "ua" }

/-- **C4 counterexample**: at a concrete state failing the
browser-integrity check, the `try` block of `setSecureJIRACredentials`
does abort with the integrity error and writes nothing — but the
exported function's catch block swallows the error, so the caller
observes a normal (void) completion: the failure is *not* observable to
the caller, refuting the claim as stated. -/
theorem c4_observable_failure_counterexample :
    verifyBrowserIntegrity badIntegrityState = false ∧
    (setSecureJIRACredentialsTry testCreds 0 badIntegrityState).1
      = Except.error StoreError.browserIntegrity ∧
    setSecureCallerOutcome testCreds 0 badIntegrityState = Except.ok () ∧
    setSecureJIRACredentials testCreds 0 badIntegrityState = badIntegrityState := by
  refine ⟨rfl, rfl, rfl, rfl⟩

/-- **C4 (amended)** Store failure surface: a store call that encounters
unavailable crypto primitives aborts internally with the
browser-integrity error and leaves the whole state unchanged; one whose
session validation fails aborts internally with the session error (the
session wipe leaves no stored record); one denied by the access-count
ceiling aborts internally with the access-limit error, leaving the
stored record exactly as it was.  In every case no `EncryptedRecord` is
written by the call — but the error is caught inside the function and
only logged, so the caller always observes a normal completion. -/
theorem c4_store_error_handling (c : JIRACredentials) (now : Int) (s : SysState) :
    (verifyBrowserIntegrity s = false →
       setSecureJIRACredentialsTry c now s = (.error .browserIntegrity, s)) ∧
    (verifyBrowserIntegrity s = true → (validateSessionSys now s).1 = false →
       (setSecureJIRACredentialsTry c now s).1 = .error .sessionInvalid ∧
       ((setSecureJIRACredentialsTry c now s).2).storage.record = none) ∧
    (verifyBrowserIntegrity s = true → (validateSessionSys now s).1 = true →
       (logCredentialAccessSys now "store_credentials"
         ((validateSessionSys now s).2)).1 = false →
       (setSecureJIRACredentialsTry c now s).1 = .error .accessLimit ∧
       ((setSecureJIRACredentialsTry c now s).2).storage.record = s.storage.record) ∧
    setSecureCallerOutcome c now s = .ok () := by
  refine ⟨?_, ?_, ?_, ?_⟩
  · intro h
    unfold setSecureJIRACredentialsTry
    simp [h]
  · intro h1 h2
    have hrec := validateSessionSys_record_of_false now s h2
    unfold setSecureJIRACredentialsTry
    simp [h1, h2, hrec]
  · intro h1 h2 h3
    have hv2 := validateSessionSys_snd_of_true now s h2
    have hst : ((logCredentialAccessSys now "store_credentials"
        ((validateSessionSys now s).2)).2).storage.record = s.storage.record := by
      rw [logCredentialAccessSys_storage, hv2]
    unfold setSecureJIRACredentialsTry
    simp [h1, h2, h3, hst]
  · unfold setSecureCallerOutcome
    cases h : (setSecureJIRACredentialsTry c now s).1 <;> simp [h]

theorem c4_store_error_handling_witness :
    verifyBrowserIntegrity badIntegrityState = false ∧
    setSecureJIRACredentialsTry testCreds 0 badIntegrityState
      = (.error .browserIntegrity, badIntegrityState) ∧
    setSecureCallerOutcome testCreds 0 badIntegrityState = .ok () :=
  ⟨rfl, (c4_store_error_handling testCreds 0 badIntegrityState).1 rfl,
   (c4_store_error_handling testCreds 0 badIntegrityState).2.2.2⟩

theorem lookupSecret_removeSecret_self (v : Nat) (l : List (Nat × Nat)) :
    lookupSecret v (removeSecret v l) = none := by
  unfold lookupSecret removeSecret
  rw [List.find?_filter, List.find?_eq_none.mpr]
  · rfl
  · intro a _
    by_cases h : a.1 = v <;> simp [h]

theorem lookupSecret_removeSecret_other (w v : Nat) (l : List (Nat × Nat)) (h : w ≠ v) :
    lookupSecret w (removeSecret v l) = lookupSecret w l := by
  unfold lookupSecret removeSecret
  rw [List.find?_filter]
  have hp : (fun a : Nat × Nat => decide ((a.1 != v) = true ∧ (a.1 == w) = true))
      = (fun a : Nat × Nat => a.1 == w) := by
    funext a
    by_cases h1 : a.1 = w
    · have h2 : a.1 ≠ v := by omega
      simp [h1, h2]
      exact h
    · simp [h1]
  rw [hp]

theorem getSessionPassword_lookup_other (v w : Nat) (s : SysState) (h : w ≠ v) :
    lookupSecret w ((getSessionPassword v s).2).storage.secrets
      = lookupSecret w s.storage.secrets := by
  unfold getSessionPassword
  cases hl : lookupSecret v s.storage.secrets with
  | some p => simp [hl]
  | none =>
    have h2 : ¬ v = w := fun hh => h hh.symm
    simp [hl, lookupSecret, List.find?_cons, h2]

theorem getSessionPassword_rng_ge (v : Nat) (s : SysState) :
    s.rng ≤ ((getSessionPassword v s).2).rng := by
  unfold getSessionPassword
  cases hl : lookupSecret v s.storage.secrets <;> simp [hl]

theorem rotateEncryptionKey_rng_ge (now : Int) (s : SysState) :
    s.rng ≤ ((rotateEncryptionKey now s).2).rng := by
  unfold rotateEncryptionKey
  simp [getSessionPassword_rng_ge]

theorem reencrypt_success_spec (newV : Nat) (now : Int) (s : SysState)
    (st : StoredEncryptedData) (p : Nat) (c : JIRACredentials)
    (hRec : s.storage.record = some st)
    (hData : st.data = CipherData.enc (getKey st.salt p) st.iv c)
    (hSec : lookupSecret st.keyVersion s.storage.secrets = some p)
    (hNe : newV ≠ st.keyVersion) :
    ∃ st' q,
      (reencryptWithNewKey newV now s).storage.record = some st' ∧
      st'.salt = s.rng ∧
      st'.iv = s.rng + 1 ∧
      st'.data = CipherData.enc (getKey st'.salt q) st'.iv c ∧
      st'.timestamp = st.timestamp ∧
      st'.fingerprint = st.fingerprint ∧
      st'.keyVersion = newV ∧
      lookupSecret newV (reencryptWithNewKey newV now s).storage.secrets = some q ∧
      lookupSecret st.keyVersion (reencryptWithNewKey newV now s).storage.secrets
        = none := by
  have hgsp := getSessionPassword_of_lookup st.keyVersion p s hSec
  have hdec : subtleDecrypt (getKey st.salt p) st.iv st.data = some c := by
    rw [hData]; simp [subtleDecrypt]
  unfold reencryptWithNewKey
  simp only [hRec, hgsp, hdec, drawFresh, subtleEncrypt]
  refine ⟨_, _, rfl, rfl, rfl, rfl, rfl, rfl, rfl, ?_, ?_⟩
  · rw [lookupSecret_removeSecret_other newV st.keyVersion _ hNe]
    exact getSessionPassword_lookup newV _
  · exact lookupSecret_removeSecret_self st.keyVersion _

theorem rotateEncryptionKey_secrets (now : Int) (s : SysState) :
    ((rotateEncryptionKey now s).2).storage.secrets
      = ((getSessionPassword (getCurrentKeyVersion s + 1) s).2).storage.secrets := rfl

/-- **C3** Rotation preserves content: on a coherent stored record
(decryptable under its own key version, which matches the schedule's
current version), `rotateEncryptionKey` returns exactly the record's
version plus one, and the subsequent `reencryptWithNewKey` produces a
stored record with the same `fingerprint` and `timestamp`, `keyVersion`
bumped by exactly one, fresh (different) salt and iv; the old version's
session secret is deleted, and an authorized retrieve before expiry and
before the next rotation returns the original plaintext pair. -/
theorem c3_rotation_preserves_content
    (t1 t2 : Int) (s : SysState) (st : StoredEncryptedData)
    (rd : RotationData) (p : Nat) (c : JIRACredentials)
    (hRec : s.storage.record = some st)
    (hData : st.data = CipherData.enc (getKey st.salt p) st.iv c)
    (hSec : lookupSecret st.keyVersion s.storage.secrets = some p)
    (hRd : s.storage.rotation = some rd)
    (hCv : rd.currentVersion = st.keyVersion)
    (hV : 0 < st.keyVersion)
    (hSaltOld : st.salt < s.rng)
    (hIvOld : st.iv < s.rng)
    (hInt : s.integrityOk = true)
    (hSess2 : (validateSessionSys t2 (reencryptWithNewKey (rotateEncryptionKey t1 s).1 t1
      (rotateEncryptionKey t1 s).2)).1 = true)
    (hAcc : s.monitor.sessionInfo.credentialAccess + 1 ≤ CREDENTIAL_ACCESS_LIMIT)
    (hExp2 : ¬ CREDENTIAL_EXPIRY < t2 - st.timestamp)
    (hT2 : t2 ≤ t1 + KEY_ROTATION_INTERVAL) :
    (rotateEncryptionKey t1 s).1 = st.keyVersion + 1 ∧
    ∃ st',
      (reencryptWithNewKey (rotateEncryptionKey t1 s).1 t1
        (rotateEncryptionKey t1 s).2).storage.record = some st' ∧
      st'.fingerprint = st.fingerprint ∧
      st'.timestamp = st.timestamp ∧
      st'.keyVersion = st.keyVersion + 1 ∧
      st'.salt ≠ st.salt ∧
      st'.iv ≠ st.iv ∧
      lookupSecret st.keyVersion
        ((reencryptWithNewKey (rotateEncryptionKey t1 s).1 t1
          (rotateEncryptionKey t1 s).2)).storage.secrets = none ∧
      (getSecureJIRACredentials t2 (reencryptWithNewKey (rotateEncryptionKey t1 s).1 t1
        (rotateEncryptionKey t1 s).2)).1 = some c := by
  have hv1 : getCurrentKeyVersion s = st.keyVersion := by
    unfold getCurrentKeyVersion
    rw [hRd]
    simp [hCv, Nat.pos_iff_ne_zero.mp hV]
  have hfst : (rotateEncryptionKey t1 s).1 = st.keyVersion + 1 := by
    rw [rotateEncryptionKey_fst, hv1]
  refine ⟨hfst, ?_⟩
  set s2 := (rotateEncryptionKey t1 s).2 with hs2
  have hRec2 : s2.storage.record = some st := by
    rw [hs2, rotateEncryptionKey_record, hRec]
  have hSec2 : lookupSecret st.keyVersion s2.storage.secrets = some p := by
    rw [hs2, rotateEncryptionKey_secrets,
      getSessionPassword_lookup_other (getCurrentKeyVersion s + 1) st.keyVersion s
        (by omega), hSec]
  have hrng2 : s.rng ≤ s2.rng := by
    rw [hs2]; exact rotateEncryptionKey_rng_ge t1 s
  obtain ⟨st', q, hrec', hsalt', hiv', hdata', hts', hfp', hkv', hlookq, hlookold⟩ :=
    reencrypt_success_spec ((rotateEncryptionKey t1 s).1) t1 s2 st p c hRec2 hData hSec2
      (by rw [hfst]; omega)
  refine ⟨st', hrec', hfp', hts', by rw [hkv', hfst], by omega, by omega, hlookold, ?_⟩
  have hInt3 : (reencryptWithNewKey (rotateEncryptionKey t1 s).1 t1 s2).integrityOk
      = true := by
    rw [reencryptWithNewKey_integrity, hs2, rotateEncryptionKey_integrity, hInt]
  have hAcc3 : (reencryptWithNewKey (rotateEncryptionKey t1 s).1 t1
      s2).monitor.sessionInfo.credentialAccess + 1 ≤ CREDENTIAL_ACCESS_LIMIT := by
    rw [reencryptWithNewKey_monitor, hs2, rotateEncryptionKey_monitor]
    exact hAcc
  have hSec3 : lookupSecret st'.keyVersion
      (reencryptWithNewKey (rotateEncryptionKey t1 s).1 t1 s2).storage.secrets
      = some q := by
    rw [hkv']
    exact hlookq
  have hExp3 : ¬ CREDENTIAL_EXPIRY
      < t2 - st'.timestamp := by
    rw [hts']
    exact hExp2
  have hRot3 : shouldRotateKey t2
      (reencryptWithNewKey (rotateEncryptionKey t1 s).1 t1 s2) = false := by
    rw [shouldRotateKey_congr t2 ((rotateEncryptionKey t1 s).2) _
      (by rw [reencryptWithNewKey_rotation, hs2])]
    exact shouldRotateKey_after_rotate t1 t2 s hT2
  obtain ⟨s'', hfin⟩ := getSecureGo_success 1 t2
    (reencryptWithNewKey (rotateEncryptionKey t1 s).1 t1 s2) st' q c
    hInt3 hSess2 hAcc3 hrec' hdata' hSec3 hExp3 hRot3
  show (getSecureGo (1 + 1) t2
    (reencryptWithNewKey (rotateEncryptionKey t1 s).1 t1 s2)).1 = some c
  rw [hfin]

theorem c3_rotation_preserves_content_witness :
    (validateSessionSys 7 (reencryptWithNewKey (rotateEncryptionKey 6 storedTestState).1 6
      (rotateEncryptionKey 6 storedTestState).2)).1 = true ∧
    ((rotateEncryptionKey 6 storedTestState).1 = 1 + 1 ∧
     ∃ st',
      (reencryptWithNewKey (rotateEncryptionKey 6 storedTestState).1 6
        (rotateEncryptionKey 6 storedTestState).2).storage.record = some st' ∧
      st'.fingerprint = Fingerprint.mk "abc123" ∧
      st'.timestamp = 5 ∧
      st'.keyVersion = 1 + 1 ∧
      st'.salt ≠ 0 ∧
      st'.iv ≠ 1 ∧
      lookupSecret 1
        ((reencryptWithNewKey (rotateEncryptionKey 6 storedTestState).1 6
          (rotateEncryptionKey 6 storedTestState).2)).storage.secrets = none ∧
      (getSecureJIRACredentials 7 (reencryptWithNewKey (rotateEncryptionKey 6 storedTestState).1 6
        (rotateEncryptionKey 6 storedTestState).2)).1 = some testCreds) :=
  ⟨by decide,
   c3_rotation_preserves_content 6 7 storedTestState
     ⟨1, 0, CipherData.enc (getKey 0 2) 1 testCreds, 5, ⟨"abc123"⟩, 1, 5, 3600005⟩
     ⟨1, 5, 3600005⟩ 2 testCreds rfl rfl (by decide) rfl rfl (by decide) (by decide)
     (by decide) rfl (by decide) (by decide) (by decide) (by decide)⟩

theorem getSessionPassword_of_missing (v : Nat) (s : SysState)
    (h : lookupSecret v s.storage.secrets = none) :
    getSessionPassword v s
      = (s.rng, { s with
          rng := s.rng + 1
          storage := { s.storage with secrets := (v, s.rng) :: s.storage.secrets } }) := by
  unfold getSessionPassword
  simp [h]

theorem subtleDecrypt_secret_mismatch (a q salt0 iv0 p0 : Nat) (iv : Nat)
    (c0 : JIRACredentials) (h : p0 ≠ q) :
    subtleDecrypt (getKey a q) iv (CipherData.enc (getKey salt0 p0) iv0 c0) = none := by
  unfold subtleDecrypt getKey
  have hne : ¬ ((DerivedKey.mk salt0 p0 = DerivedKey.mk a q) ∧ iv0 = iv) := by
    rintro ⟨h1, -⟩
    exact h (congrArg DerivedKey.secret h1)
  simp only [hne, if_false, ite_false, if_neg]

theorem reencrypt_fail_spec (newV : Nat) (now : Int) (s : SysState)
    (st : StoredEncryptedData)
    (hRec : s.storage.record = some st)
    (hDec : subtleDecrypt (getKey st.salt (getSessionPassword st.keyVersion s).1)
      st.iv st.data = none) :
    reencryptWithNewKey newV now s = (getSessionPassword st.keyVersion s).2 := by
  unfold reencryptWithNewKey
  simp [hRec, hDec]

/-- **C7** Re-encryption failure clears the vault: when a due rotation is
handled inside `getSecureJIRACredentials` and `reencryptWithNewKey`
fails because the record's own key-version secret is missing (so the
freshly regenerated secret cannot decrypt it), the recursive retry finds
the record undecryptable, clears it, and the call returns null — the
failure is treated like expiry instead of leaving an undecryptable
record behind. -/
theorem c7_reencrypt_failure_clears
    (now : Int) (s : SysState) (st : StoredEncryptedData) (rd : RotationData)
    (salt0 iv0 p0 : Nat) (c0 : JIRACredentials)
    (hInt : s.integrityOk = true)
    (hSess : (validateSessionSys now s).1 = true)
    (hUA : s.userAgent = s.monitor.sessionInfo.userAgent)
    (hAcc2 : s.monitor.sessionInfo.credentialAccess + 2 ≤ CREDENTIAL_ACCESS_LIMIT)
    (hRec : s.storage.record = some st)
    (hData0 : st.data = CipherData.enc (getKey salt0 p0) iv0 c0)
    (hp0 : p0 < s.rng)
    (hNoSec : lookupSecret st.keyVersion s.storage.secrets = none)
    (hRd : s.storage.rotation = some rd)
    (hCv : rd.currentVersion = st.keyVersion)
    (hKv : 0 < st.keyVersion)
    (hDue : shouldRotateKey now s = true)
    (hExp : ¬ CREDENTIAL_EXPIRY < now - st.timestamp) :
    (getSecureJIRACredentials now s).1 = none ∧
    ((getSecureJIRACredentials now s).2).storage.record = none := by
  have hv2 := validateSessionSys_snd_of_true now s hSess
  have hb1 : verifyBrowserIntegrity s = true := hInt
  have hb3 : (logCredentialAccessSys now "retrieve_credentials"
      ((validateSessionSys now s).2)).1 = true := by
    rw [hv2, logCredentialAccessSys_fst]
    exact decide_eq_true (by omega)
  have htst : ((logCredentialAccessSys now "retrieve_credentials"
      ((validateSessionSys now s).2)).2).storage = s.storage := by
    rw [hv2, logCredentialAccessSys_storage]
  have hb4 : ((logCredentialAccessSys now "retrieve_credentials"
      ((validateSessionSys now s).2)).2).storage.record = some st := by
    rw [htst, hRec]
  have hb6 : shouldRotateKey now ((logCredentialAccessSys now "retrieve_credentials"
      ((validateSessionSys now s).2)).2) = true := by
    rw [shouldRotateKey_congr now s _ (by rw [htst])]
    exact hDue
  have hstep := getSecureGo_rotate_step 1 now s st hb1 hSess hb3 hb4 hExp hb6
  set T := (logCredentialAccessSys now "retrieve_credentials"
    ((validateSessionSys now s).2)).2 with hT
  have hTrng : T.rng = s.rng := by rw [hT, hv2, logCredentialAccessSys_rng]
  have hTint : T.integrityOk = s.integrityOk := by
    rw [hT, hv2, logCredentialAccessSys_integrity]
  have hTua : T.userAgent = s.userAgent := by
    rw [hT, hv2, logCredentialAccessSys_userAgent]
  have hTcnt : T.monitor.sessionInfo.credentialAccess
      = s.monitor.sessionInfo.credentialAccess + 1 := by
    rw [hT, hv2, logCredentialAccessSys_count]
  have hTla : T.monitor.sessionInfo.lastActivity = now := by
    rw [hT, hv2, logCredentialAccessSys_lastActivity]
  have hTuasnap : T.monitor.sessionInfo.userAgent = s.monitor.sessionInfo.userAgent := by
    rw [hT, hv2, logCredentialAccessSys_userAgent_snapshot]
  have hTrot : T.storage.rotation = some rd := by rw [htst, hRd]
  have hcvT : getCurrentKeyVersion T = st.keyVersion := by
    unfold getCurrentKeyVersion
    rw [hTrot]
    simp [hCv, Nat.pos_iff_ne_zero.mp hKv]
  set S2 := (rotateEncryptionKey now T).2 with hS2
  have hS2rec : S2.storage.record = some st := by
    rw [hS2, rotateEncryptionKey_record, htst, hRec]
  have hS2rng : s.rng ≤ S2.rng := by
    have h1 := rotateEncryptionKey_rng_ge now T
    rw [← hS2] at h1
    omega
  have hS2nosec : lookupSecret st.keyVersion S2.storage.secrets = none := by
    rw [hS2, rotateEncryptionKey_secrets,
      getSessionPassword_lookup_other (getCurrentKeyVersion T + 1) st.keyVersion T
        (by rw [hcvT]; omega), htst]
    exact hNoSec
  have hgspS2 := getSessionPassword_of_missing st.keyVersion S2 hS2nosec
  have hfresh : subtleDecrypt (getKey st.salt (getSessionPassword st.keyVersion S2).1)
      st.iv st.data = none := by
    rw [hgspS2]
    show subtleDecrypt (getKey st.salt S2.rng) st.iv st.data = none
    rw [hData0]
    exact subtleDecrypt_secret_mismatch st.salt S2.rng salt0 iv0 p0 st.iv c0 (by omega)
  have hre := reencrypt_fail_spec ((rotateEncryptionKey now T).1) now S2 st hS2rec hfresh
  rw [hgspS2] at hre
  set S3 := ({ S2 with
    rng := S2.rng + 1
    storage := { S2.storage with
      secrets := (st.keyVersion, S2.rng) :: S2.storage.secrets } } : SysState) with hS3
  have hS3mon : S3.monitor = T.monitor := by
    rw [hS3]
    show S2.monitor = T.monitor
    rw [hS2, rotateEncryptionKey_monitor]
  have hInt3 : S3.integrityOk = true := by
    rw [hS3]
    show S2.integrityOk = true
    rw [hS2, rotateEncryptionKey_integrity, hTint, hInt]
  have hS3ua : S3.userAgent = s.userAgent := by
    rw [hS3]
    show S2.userAgent = s.userAgent
    rw [hS2, rotateEncryptionKey_userAgent, hTua]
  have hSess3' := validateSessionSys_of_checks now S3
    (by rw [hS3mon, hTla]; unfold SESSION_TIMEOUT; omega)
    (by rw [hS3ua, hS3mon, hTuasnap]; exact hUA)
  have hSess3 : (validateSessionSys now S3).1 = true := by rw [hSess3']
  have hAcc3 : S3.monitor.sessionInfo.credentialAccess + 1
      ≤ CREDENTIAL_ACCESS_LIMIT := by
    rw [hS3mon, hTcnt]
    omega
  have hRec3 : S3.storage.record = some st := by
    rw [hS3]
    show S2.storage.record = some st
    exact hS2rec
  have hSec3 : lookupSecret st.keyVersion S3.storage.secrets = some S2.rng := by
    rw [hS3]
    show lookupSecret st.keyVersion ((st.keyVersion, S2.rng) :: S2.storage.secrets)
      = some S2.rng
    simp [lookupSecret, List.find?_cons]
  have hDec3 : subtleDecrypt (getKey st.salt S2.rng) st.iv st.data = none := by
    rw [hData0]
    exact subtleDecrypt_secret_mismatch st.salt S2.rng salt0 iv0 p0 st.iv c0 (by omega)
  have hRot3 : shouldRotateKey now S3 = false := by
    rw [shouldRotateKey_congr now S2 S3 (by rw [hS3])]
    rw [hS2]
    exact shouldRotateKey_after_rotate now now T (by unfold KEY_ROTATION_INTERVAL; omega)
  obtain ⟨s4, heq4, hrec4⟩ := getSecureGo_decrypt_fail 0 now S3 st S2.rng
    hInt3 hSess3 hAcc3 hRec3 hSec3 hDec3 hExp hRot3
  have hall : getSecureJIRACredentials now s = (none, s4) := by
    show getSecureGo (1 + 1) now s = (none, s4)
    rw [hstep, hre]
    exact heq4
  rw [hall]
  exact ⟨rfl, hrec4⟩

/-- A concrete vault state with a due rotation and a stored record whose
own key-version secret is missing from the ephemeral store. -/
def orphanRecordState : SysState :=
  { storage :=
      { record := some ⟨1, 0, CipherData.enc (getKey 0 2) 1 testCreds, 5,
          ⟨"abc123"⟩, 1, 5, 10⟩
        rotation := some ⟨1, 5, 10⟩
        secrets := [] }
    monitor := ⟨"sid", [], ⟨"sid", 0, 20, "ua", 0⟩⟩
    rng := 3
    integrityOk := true
    userAgent := "ua" }

theorem c7_reencrypt_failure_clears_witness :
    lookupSecret 1 orphanRecordState.storage.secrets = none ∧
    shouldRotateKey 20 orphanRecordState = true ∧
    ((getSecureJIRACredentials 20 orphanRecordState).1 = none ∧
     ((getSecureJIRACredentials 20 orphanRecordState).2).storage.record = none) :=
  ⟨rfl, by decide,
   c7_reencrypt_failure_clears 20 orphanRecordState
     ⟨1, 0, CipherData.enc (getKey 0 2) 1 testCreds, 5, ⟨"abc123"⟩, 1, 5, 10⟩
     ⟨1, 5, 10⟩ 0 1 2 testCreds rfl (by decide) rfl (by decide) rfl rfl (by decide)
     rfl rfl rfl (by decide) (by decide) (by decide)⟩

theorem clearJIRACredentials_monitor (s : SysState) :
    (clearJIRACredentials s).monitor = s.monitor := by
  unfold clearJIRACredentials
  cases h : s.storage.rotation <;> simp [h]

theorem clearJIRACredentials_integrity (s : SysState) :
    (clearJIRACredentials s).integrityOk = s.integrityOk := by
  unfold clearJIRACredentials
  cases h : s.storage.rotation <;> simp [h]

theorem getSecureGo_denied (fuel : Nat) (now : Int) (X : SysState)
    (hInt : X.integrityOk = true)
    (hSess : (validateSessionSys now X).1 = true)
    (hAcc : CREDENTIAL_ACCESS_LIMIT < X.monitor.sessionInfo.credentialAccess + 1) :
    (getSecureGo (fuel + 1) now X).1 = none ∧
    ((getSecureGo (fuel + 1) now X).2).storage = X.storage ∧
    ((getSecureGo (fuel + 1) now X).2).monitor.sessionInfo.credentialAccess
      = X.monitor.sessionInfo.credentialAccess + 1 := by
  have hv2 := validateSessionSys_snd_of_true now X hSess
  have hlca : (logCredentialAccessSys now "retrieve_credentials" X).1 = false := by
    rw [logCredentialAccessSys_fst]
    simp
    omega
  simp only [getSecureGo, verifyBrowserIntegrity, hInt, hSess, hv2, hlca, not_true,
    Bool.not_true, Bool.not_false, ite_false, ite_true, if_false, if_true,
    Bool.false_eq_true, not_false_iff]
  refine ⟨trivial, ?_, ?_⟩
  · show ((logCredentialAccessSys now "retrieve_credentials" X).2).storage = X.storage
    exact logCredentialAccessSys_storage now _ X
  · show (logSecurityEvent now ((logCredentialAccessSys now "retrieve_credentials"
      X).2).userAgent "credential_access_limit_exceeded" "" Severity.high
      ((logCredentialAccessSys now "retrieve_credentials"
        X).2).monitor).sessionInfo.credentialAccess
      = X.monitor.sessionInfo.credentialAccess + 1
    rw [logSecurityEvent_credentialAccess, logCredentialAccessSys_count]

theorem getSecureGo_count_one (now : Int) (X : SysState)
    (hInt : X.integrityOk = true)
    (hSess : (validateSessionSys now X).1 = true) :
    ((getSecureGo 1 now X).2).monitor.sessionInfo.credentialAccess
      = X.monitor.sessionInfo.credentialAccess + 1 := by
  have hv2 := validateSessionSys_snd_of_true now X hSess
  cases hb3 : (logCredentialAccessSys now "retrieve_credentials" X).1 with
  | false =>
    have hAcc : CREDENTIAL_ACCESS_LIMIT < X.monitor.sessionInfo.credentialAccess + 1 := by
      rw [logCredentialAccessSys_fst] at hb3
      simp at hb3
      omega
    exact (getSecureGo_denied 0 now X hInt hSess hAcc).2.2
  | true =>
    show ((getSecureGo (0 + 1) now X).2).monitor.sessionInfo.credentialAccess
      = X.monitor.sessionInfo.credentialAccess + 1
    simp only [getSecureGo, verifyBrowserIntegrity, hInt, hSess, hv2, hb3, not_true,
      Bool.not_true, ite_false, ite_true, if_false, if_true, Bool.false_eq_true,
      not_false_iff]
    set T := (logCredentialAccessSys now "retrieve_credentials" X).2 with hT
    have hTcnt : T.monitor.sessionInfo.credentialAccess
        = X.monitor.sessionInfo.credentialAccess + 1 := by
      rw [hT, logCredentialAccessSys_count]
    cases hb4 : T.storage.record with
    | none => simp only [hb4]; exact hTcnt
    | some stored =>
      simp only [hb4]
      by_cases hb5 : CREDENTIAL_EXPIRY < now - stored.timestamp
      · rw [if_pos hb5]
        show (clearJIRACredentials T).monitor.sessionInfo.credentialAccess
          = X.monitor.sessionInfo.credentialAccess + 1
        rw [clearJIRACredentials_monitor]
        exact hTcnt
      · rw [if_neg hb5]
        cases hb6 : shouldRotateKey now T with
        | true =>
          simp only [hb6, if_true]
          show ((reencryptWithNewKey (rotateEncryptionKey now T).1 now
            (rotateEncryptionKey now T).2)).monitor.sessionInfo.credentialAccess
            = X.monitor.sessionInfo.credentialAccess + 1
          rw [reencryptWithNewKey_monitor, rotateEncryptionKey_monitor]
          exact hTcnt
        | false =>
          simp only [hb6, Bool.false_eq_true, if_false]
          cases hb7 : subtleDecrypt (getKey stored.salt
              (getSessionPassword stored.keyVersion T).1) stored.iv stored.data with
          | none =>
            simp only [hb7]
            show (clearJIRACredentials
              ((getSessionPassword stored.keyVersion T).2)).monitor.sessionInfo.credentialAccess
              = X.monitor.sessionInfo.credentialAccess + 1
            rw [clearJIRACredentials_monitor, getSessionPassword_monitor]
            exact hTcnt
          | some creds =>
            simp only [hb7]
            show ((getSessionPassword stored.keyVersion
              T).2).monitor.sessionInfo.credentialAccess
              = X.monitor.sessionInfo.credentialAccess + 1
            rw [getSessionPassword_monitor]
            exact hTcnt

/-- **C10** Rotation retry double-charges the access counter: one
external `getSecureJIRACredentials` call on a stored, unexpired record
increments the session's credential-access counter by exactly 1 when no
rotation is due, but by exactly 2 when a due rotation is handled (the
recursive self-call re-enters the full authorization gate); in
particular, when the counter stands exactly one below the ceiling, the
outer call is authorized, the rotation and re-encryption complete (the
stored record's key version is bumped), and yet the inner call is denied
by the ceiling, so the call returns null. -/
theorem c10_rotation_retry_double_count
    (now : Int) (s : SysState) (st : StoredEncryptedData) (rd : RotationData)
    (p : Nat) (c : JIRACredentials)
    (hInt : s.integrityOk = true)
    (hSess : (validateSessionSys now s).1 = true)
    (hUA : s.userAgent = s.monitor.sessionInfo.userAgent)
    (hRec : s.storage.record = some st)
    (hData : st.data = CipherData.enc (getKey st.salt p) st.iv c)
    (hSec : lookupSecret st.keyVersion s.storage.secrets = some p)
    (hRd : s.storage.rotation = some rd)
    (hCv : rd.currentVersion = st.keyVersion)
    (hKv : 0 < st.keyVersion)
    (hExp : ¬ CREDENTIAL_EXPIRY < now - st.timestamp) :
    (shouldRotateKey now s = false →
       s.monitor.sessionInfo.credentialAccess + 1 ≤ CREDENTIAL_ACCESS_LIMIT →
       ((getSecureJIRACredentials now s).2).monitor.sessionInfo.credentialAccess
         = s.monitor.sessionInfo.credentialAccess + 1) ∧
    (shouldRotateKey now s = true →
       s.monitor.sessionInfo.credentialAccess + 1 ≤ CREDENTIAL_ACCESS_LIMIT →
       ((getSecureJIRACredentials now s).2).monitor.sessionInfo.credentialAccess
         = s.monitor.sessionInfo.credentialAccess + 2) ∧
    (shouldRotateKey now s = true →
       s.monitor.sessionInfo.credentialAccess + 1 = CREDENTIAL_ACCESS_LIMIT →
       (getSecureJIRACredentials now s).1 = none ∧
       ∃ st', ((getSecureJIRACredentials now s).2).storage.record = some st' ∧
         st'.keyVersion = st.keyVersion + 1) := by
  have hv2 := validateSessionSys_snd_of_true now s hSess
  have hb1 : verifyBrowserIntegrity s = true := hInt
  have htst : ((logCredentialAccessSys now "retrieve_credentials"
      ((validateSessionSys now s).2)).2).storage = s.storage := by
    rw [hv2, logCredentialAccessSys_storage]
  have hTcnt : ((logCredentialAccessSys now "retrieve_credentials"
      ((validateSessionSys now s).2)).2).monitor.sessionInfo.credentialAccess
      = s.monitor.sessionInfo.credentialAccess + 1 := by
    rw [hv2, logCredentialAccessSys_count]
  have hTla : ((logCredentialAccessSys now "retrieve_credentials"
      ((validateSessionSys now s).2)).2).monitor.sessionInfo.lastActivity = now := by
    rw [hv2, logCredentialAccessSys_lastActivity]
  have hTuasnap : ((logCredentialAccessSys now "retrieve_credentials"
      ((validateSessionSys now s).2)).2).monitor.sessionInfo.userAgent
      = s.monitor.sessionInfo.userAgent := by
    rw [hv2, logCredentialAccessSys_userAgent_snapshot]
  have hTua : ((logCredentialAccessSys now "retrieve_credentials"
      ((validateSessionSys now s).2)).2).userAgent = s.userAgent := by
    rw [hv2, logCredentialAccessSys_userAgent]
  have hTint : ((logCredentialAccessSys now "retrieve_credentials"
      ((validateSessionSys now s).2)).2).integrityOk = s.integrityOk := by
    rw [hv2, logCredentialAccessSys_integrity]
  set T := (logCredentialAccessSys now "retrieve_credentials"
    ((validateSessionSys now s).2)).2 with hT
  set RE := reencryptWithNewKey (rotateEncryptionKey now T).1 now
    (rotateEncryptionKey now T).2 with hRE
  have hREmon : RE.monitor = T.monitor := by
    rw [hRE, reencryptWithNewKey_monitor, rotateEncryptionKey_monitor]
  have hREint : RE.integrityOk = true := by
    rw [hRE, reencryptWithNewKey_integrity, rotateEncryptionKey_integrity, hTint, hInt]
  have hREua : RE.userAgent = s.userAgent := by
    rw [hRE, reencryptWithNewKey_userAgent, rotateEncryptionKey_userAgent, hTua]
  have hSessRE' := validateSessionSys_of_checks now RE
    (by rw [hREmon, hTla]; unfold SESSION_TIMEOUT; omega)
    (by rw [hREua, hREmon, hTuasnap]; exact hUA)
  have hSessRE : (validateSessionSys now RE).1 = true := by rw [hSessRE']
  refine ⟨?_, ?_, ?_⟩
  · intro hRotF hAcc1
    have h1 := getSecureGo_fuel_of_not_due 1 now s hRotF
    show ((getSecureGo (1 + 1) now s).2).monitor.sessionInfo.credentialAccess
      = s.monitor.sessionInfo.credentialAccess + 1
    rw [h1]
    exact getSecureGo_count_one now s hInt hSess
  · intro hRotT hAcc1
    have hb3 : (logCredentialAccessSys now "retrieve_credentials"
        ((validateSessionSys now s).2)).1 = true := by
      rw [hv2, logCredentialAccessSys_fst]
      exact decide_eq_true hAcc1
    have hb4 : T.storage.record = some st := by rw [htst, hRec]
    have hb6 : shouldRotateKey now T = true := by
      rw [shouldRotateKey_congr now s T (by rw [htst])]
      exact hRotT
    have hstep := getSecureGo_rotate_step 1 now s st hb1 hSess hb3 hb4 hExp hb6
    show ((getSecureGo (1 + 1) now s).2).monitor.sessionInfo.credentialAccess
      = s.monitor.sessionInfo.credentialAccess + 2
    rw [hstep]
    have hcnt := getSecureGo_count_one now RE hREint hSessRE
    rw [hcnt, hREmon, hTcnt]
  · intro hRotT hAccEq
    have hb3 : (logCredentialAccessSys now "retrieve_credentials"
        ((validateSessionSys now s).2)).1 = true := by
      rw [hv2, logCredentialAccessSys_fst]
      exact decide_eq_true (by omega)
    have hb4 : T.storage.record = some st := by rw [htst, hRec]
    have hb6 : shouldRotateKey now T = true := by
      rw [shouldRotateKey_congr now s T (by rw [htst])]
      exact hRotT
    have hstep := getSecureGo_rotate_step 1 now s st hb1 hSess hb3 hb4 hExp hb6
    have hcvT : getCurrentKeyVersion T = st.keyVersion := by
      unfold getCurrentKeyVersion
      rw [show T.storage.rotation = some rd by rw [htst, hRd]]
      simp [hCv, Nat.pos_iff_ne_zero.mp hKv]
    have hS2rec : ((rotateEncryptionKey now T).2).storage.record = some st := by
      rw [rotateEncryptionKey_record, htst, hRec]
    have hS2sec : lookupSecret st.keyVersion
        ((rotateEncryptionKey now T).2).storage.secrets = some p := by
      rw [rotateEncryptionKey_secrets,
        getSessionPassword_lookup_other (getCurrentKeyVersion T + 1) st.keyVersion T
          (by rw [hcvT]; omega), htst]
      exact hSec
    obtain ⟨st', q, hrec', hsalt', hiv', hdata', hts', hfp', hkv', hlookq, hlookold⟩ :=
      reencrypt_success_spec ((rotateEncryptionKey now T).1) now
        ((rotateEncryptionKey now T).2) st p c hS2rec hData hS2sec
        (by rw [rotateEncryptionKey_fst, hcvT]; omega)
    have hAccRE : CREDENTIAL_ACCESS_LIMIT < RE.monitor.sessionInfo.credentialAccess + 1 := by
      rw [hREmon, hTcnt]
      omega
    obtain ⟨hres1, hres2, hres3⟩ := getSecureGo_denied 0 now RE hREint hSessRE hAccRE
    constructor
    · show (getSecureGo (1 + 1) now s).1 = none
      rw [hstep]
      exact hres1
    · show ∃ st'', ((getSecureGo (1 + 1) now s).2).storage.record = some st''
        ∧ st''.keyVersion = st.keyVersion + 1
      rw [hstep]
      refine ⟨st', ?_, by rw [hkv', rotateEncryptionKey_fst, hcvT]⟩
      rw [hres2]
      exact hrec'

/-- A concrete vault state with a due rotation, a decryptable record and
the access counter standing exactly one below the ceiling. -/
def nearCeilingState : SysState :=
  { storage :=
      { record := some ⟨1, 0, CipherData.enc (getKey 0 2) 1 testCreds, 5,
          ⟨"abc123"⟩, 1, 5, 10⟩
        rotation := some ⟨1, 5, 10⟩
        secrets := [(1, 2)] }
    monitor := ⟨"sid", [], ⟨"sid", 0, 20, "ua", 49⟩⟩
    rng := 3
    integrityOk := true
    userAgent := "ua" }

theorem c10_rotation_retry_double_count_witness :
    shouldRotateKey 20 nearCeilingState = true ∧
    nearCeilingState.monitor.sessionInfo.credentialAccess + 1
      = CREDENTIAL_ACCESS_LIMIT ∧
    (((getSecureJIRACredentials 20 nearCeilingState).2).monitor.sessionInfo.credentialAccess
      = nearCeilingState.monitor.sessionInfo.credentialAccess + 2) ∧
    ((getSecureJIRACredentials 20 nearCeilingState).1 = none ∧
     ∃ st', ((getSecureJIRACredentials 20 nearCeilingState).2).storage.record = some st' ∧
       st'.keyVersion = 1 + 1) :=
  ⟨by decide, by decide,
   (c10_rotation_retry_double_count 20 nearCeilingState
     ⟨1, 0, CipherData.enc (getKey 0 2) 1 testCreds, 5, ⟨"abc123"⟩, 1, 5, 10⟩
     ⟨1, 5, 10⟩ 2 testCreds rfl (by decide) rfl rfl rfl (by decide) rfl rfl
     (by decide) (by decide)).2.1 (by decide) (by decide),
   (c10_rotation_retry_double_count 20 nearCeilingState
     ⟨1, 0, CipherData.enc (getKey 0 2) 1 testCreds, 5, ⟨"abc123"⟩, 1, 5, 10⟩
     ⟨1, 5, 10⟩ 2 testCreds rfl (by decide) rfl rfl rfl (by decide) rfl rfl
     (by decide) (by decide)).2.2 (by decide) (by decide)⟩
